import Mathlib

/-!
Verification development for the legatus orchestrator.

This file shallowly embeds the parts of the legatus code base that the
verified properties talk about:

- the task model and transition table (src/legatus/models/task.py),
- the task store status update (src/legatus/redis_client/task_store.py),
- the checkpoint model and manager (src/legatus/models/checkpoint.py,
  src/legatus/orchestrator/services/checkpoint_manager.py),
- the checkpoint HTTP router (src/legatus/orchestrator/routers/checkpoints.py),
- the event bus reactor (src/legatus/orchestrator/services/event_bus.py),
- the task dispatcher (src/legatus/orchestrator/services/task_dispatcher.py),
- the PM plan validator (src/legatus/orchestrator/services/pm_parser.py).

The repository ships two generations of the code: the data models
(models/task.py, models/agent.py, models/config.py) and the checkpoint
manager are the older, QA-less generation, while the services
(event_bus.py, task_dispatcher.py) are the newer generation that
references a TESTING task status, an agent role for reviewer and QA, a
branch_name task field and a source_role checkpoint argument, none of
which exist in the shipped models.  Definitions below that fill such a
gap carry a doc comment starting with: Modelled from the spec.

Redis maps are embedded as association lists, the async effects as
explicit state passing, and a raised exception as an Except.error that
still carries the state at the raise point (Redis writes performed
before a raise stay persisted, exactly as in the Python code).
-/

namespace Legatus

/-- Association-list update: replace the first binding of the key, or
append a new binding at the end (the embedding of a Redis SET / a
Python dict item assignment). -/
def updA {α : Type} : List (String × α) → String → α → List (String × α)
  | [], k, v => [(k, v)]
  | (k', v') :: t, k, v =>
      if k' = k then (k, v) :: t else (k', v') :: updA t k v

/-- Association-list delete: drop every binding of the key (the
embedding of a Redis DEL). -/
def delA {α : Type} (l : List (String × α)) (k : String) : List (String × α) :=
  l.filter (fun kv => kv.1 ≠ k)

/-- Ordered-set member removal (the embedding of a Redis ZREM). -/
def zrem (l : List String) (k : String) : List String :=
  l.filter (fun x => x ≠ k)

/-! Code-level task model, translated from src/legatus/models/task.py. -/

/-- TaskStatus as declared in models/task.py.  Note that the shipped
enum has no TESTING member. -/
inductive TaskStatus where
  | created
  | planned
  | active
  | review
  | blocked
  | rejected
  | done
deriving DecidableEq, Repr, Fintype

/-- String value of each status member, as in the Python StrEnum. -/
def statusName : TaskStatus → String
  | .created => "created"
  | .planned => "planned"
  | .active => "active"
  | .review => "review"
  | .blocked => "blocked"
  | .rejected => "rejected"
  | .done => "done"

/-- VALID_TRANSITIONS from models/task.py; a status missing from the
dict (DONE) maps to the empty list, matching dict.get(status, []). -/
def VALID_TRANSITIONS : TaskStatus → List TaskStatus
  | .created => [.planned]
  | .planned => [.active]
  | .active => [.review, .blocked]
  | .blocked => [.active]
  | .review => [.done, .rejected]
  | .rejected => [.planned]
  | .done => []

/-- TaskEvent from models/task.py (timestamp modelled as a Nat tick). -/
structure TaskEvent where
  timestamp : Nat
  event : String
  eventBy : Option String
  detail : Option String
deriving DecidableEq, Repr

/-- The slice of a stored Task that the code-level claims read:
status, history and the updated_at stamp. -/
structure CTask where
  status : TaskStatus
  history : List TaskEvent
  updatedAt : Nat
deriving DecidableEq, Repr

/-- CheckpointStatus from models/checkpoint.py. -/
inductive CpStatus where
  | pending
  | approved
  | rejected
deriving DecidableEq, Repr

/-- Checkpoint from models/checkpoint.py.  The shipped model already
declares source_role, but the shipped manager never sets it. -/
structure CCheckpoint where
  taskId : String
  title : String
  descr : String
  status : CpStatus
  resolvedAt : Option Nat
  resolvedBy : Option String
  rejectionReason : Option String
  sourceRole : Option String
deriving DecidableEq, Repr

/-- The store state the code-level claims range over: the task map,
the checkpoint map and the pending ordered set (kept as a list ordered
by creation time, since scores only ever increase). -/
structure CState where
  tasks : List (String × CTask)
  checkpoints : List (String × CCheckpoint)
  pending : List String
deriving DecidableEq, Repr

/-- TaskStore.update_status from redis_client/task_store.py: refuse the
transition unless the target is allowed from the current status, else
set the status, append one history event and bump updated_at. -/
def updateStatusC (s : CState) (id : String) (new : TaskStatus)
    (evBy evDetail : Option String) (now : Nat) :
    CState × Except String Unit :=
  match s.tasks.lookup id with
  | none => (s, .error "task not found")
  | some t =>
      if new ∈ VALID_TRANSITIONS t.status then
        let ev : TaskEvent :=
          ⟨now, "status_change:" ++ statusName new, evBy, evDetail⟩
        let t' : CTask := ⟨new, t.history ++ [ev], now⟩
        ({ s with tasks := updA s.tasks id t' }, .ok ())
      else
        (s, .error "invalid transition")

/-- CheckpointManager.create from checkpoint_manager.py.  The fresh
checkpoint id is supplied by the caller (the code mints a uuid).  The
checkpoint is persisted and indexed as pending before the blocking
transition runs, so both writes survive when that transition raises. -/
def createCp (s : CState) (cpId taskId title descr : String) (now : Nat) :
    CState × Except String CCheckpoint :=
  let cp : CCheckpoint :=
    ⟨taskId, title, descr, .pending, none, none, none, none⟩
  let s1 : CState :=
    { s with checkpoints := updA s.checkpoints cpId cp
             pending := s.pending ++ [cpId] }
  match updateStatusC s1 taskId .blocked (some "checkpoint")
      (some ("checkpoint=" ++ cpId ++ ": " ++ title)) now with
  | (s2, .ok _) => (s2, .ok cp)
  | (s2, .error e) => (s2, .error e)

/-- CheckpointManager.approve from checkpoint_manager.py: re-fetch the
checkpoint by key (the pending index is not consulted), mark it
approved, remove it from the pending index, then transition the task to
ACTIVE through the store (which raises on an invalid transition). -/
def approveCp (s : CState) (cpId : String) (now : Nat) :
    CState × Except String (Option CCheckpoint) :=
  match s.checkpoints.lookup cpId with
  | none => (s, .ok none)
  | some cp =>
      let cp' : CCheckpoint :=
        { cp with status := .approved, resolvedAt := some now,
                  resolvedBy := some "user" }
      let s1 : CState :=
        { s with checkpoints := updA s.checkpoints cpId cp'
                 pending := zrem s.pending cpId }
      match updateStatusC s1 cp.taskId .active (some "user")
          (some ("checkpoint " ++ cpId ++ " approved")) now with
      | (s2, .ok _) => (s2, .ok (some cp'))
      | (s2, .error e) => (s2, .error e)

/-- CheckpointManager.reject from checkpoint_manager.py: mark rejected,
remove from the pending index, and transition the task to ACTIVE only
when the task currently is BLOCKED (the guard in the source). -/
def rejectCp (s : CState) (cpId reason : String) (now : Nat) :
    CState × Except String (Option CCheckpoint) :=
  match s.checkpoints.lookup cpId with
  | none => (s, .ok none)
  | some cp =>
      let cp' : CCheckpoint :=
        { cp with status := .rejected, resolvedAt := some now,
                  resolvedBy := some "user", rejectionReason := some reason }
      let s1 : CState :=
        { s with checkpoints := updA s.checkpoints cpId cp'
                 pending := zrem s.pending cpId }
      match s1.tasks.lookup cp.taskId with
      | some t =>
          if t.status = .blocked then
            match updateStatusC s1 cp.taskId .active (some "user")
                (some ("checkpoint " ++ cpId ++ " rejected: " ++ reason)) now with
            | (s2, .ok _) => (s2, .ok (some cp'))
            | (s2, .error e) => (s2, .error e)
          else (s1, .ok (some cp'))
      | none => (s1, .ok (some cp'))

/-! The transition table the specification states (section 3.2). -/

/-- Modelled from the spec: the task lifecycle of spec section 3.2,
which includes the testing status driven by the QA gate.  The services
under src/ reference TaskStatus.TESTING although the shipped
models/task.py has no such member. -/
inductive SpecStatus where
  | created
  | planned
  | active
  | review
  | blocked
  | rejected
  | testing
  | done
deriving DecidableEq, Repr, Fintype

/-- Modelled from the spec: the exhaustive transition table of spec
section 3.2, including the three testing rows. -/
def specTransitions : SpecStatus → List SpecStatus
  | .created => [.planned]
  | .planned => [.active]
  | .active => [.review, .blocked, .testing]
  | .blocked => [.active]
  | .review => [.done, .rejected, .testing]
  | .testing => [.done, .rejected]
  | .rejected => [.planned]
  | .done => []

/-- Embedding of the shipped status enum into the spec lifecycle. -/
def toSpec : TaskStatus → SpecStatus
  | .created => .created
  | .planned => .planned
  | .active => .active
  | .review => .review
  | .blocked => .blocked
  | .rejected => .rejected
  | .done => .done

/-! A transition system over the code-level store, for the reachability
invariant about pending checkpoints.  The steps are the store and
checkpoint-manager operations exactly as embedded above; the guards are
the usage discipline the spec states for them: checkpoints are created
on ACTIVE tasks with a fresh id (spec 4.2), approve and reject act on
checkpoints of the pending index, and ordinary status changes never
move a BLOCKED task (spec 3.2: blocked to active happens only on
checkpoint resolution). -/

/-- The empty store. -/
def initState : CState := ⟨[], [], []⟩

/-- TaskStore.create for a fresh Task record (status CREATED with the
creation history event), as the task router and PM handler do. -/
def createTask (s : CState) (id : String) (now : Nat) : CState :=
  let t0 : CTask := ⟨.created, [⟨now, "created", some "user", none⟩], now⟩
  { s with tasks := updA s.tasks id t0 }

/-- One step of the disciplined system. -/
inductive Step : CState → CState → Prop where
  | newTask (s : CState) (id : String) (now : Nat)
      (hfresh : s.tasks.lookup id = none) :
      Step s (createTask s id now)
  | taskMove (s : CState) (id : String) (new : TaskStatus)
      (evBy evDetail : Option String) (now : Nat) (t : CTask)
      (hl : s.tasks.lookup id = some t)
      (hnb : t.status ≠ .blocked) :
      Step s (updateStatusC s id new evBy evDetail now).1
  | mkCp (s : CState) (cpId taskId title descr : String) (now : Nat) (t : CTask)
      (hl : s.tasks.lookup taskId = some t)
      (hact : t.status = .active)
      (hfc : s.checkpoints.lookup cpId = none)
      (hfp : cpId ∉ s.pending) :
      Step s (createCp s cpId taskId title descr now).1
  | approveStep (s : CState) (cpId : String) (now : Nat)
      (hp : cpId ∈ s.pending) :
      Step s (approveCp s cpId now).1
  | rejectStep (s : CState) (cpId reason : String) (now : Nat)
      (hp : cpId ∈ s.pending) :
      Step s (rejectCp s cpId reason now).1

/-- Reachability from the empty store. -/
inductive Reach : CState → Prop where
  | init : Reach initState
  | next {s s' : CState} : Reach s → Step s s' → Reach s'

/-- The pending-checkpoint invariant: every id in the pending index
holds a PENDING checkpoint whose task exists and is BLOCKED. -/
def PendingInv (s : CState) : Prop :=
  ∀ cid ∈ s.pending, ∃ cp, s.checkpoints.lookup cid = some cp ∧
    cp.status = .pending ∧
    ∃ t, s.tasks.lookup cp.taskId = some t ∧ t.status = .blocked

/-- Auxiliary strengthening: distinct pending checkpoints reference
distinct tasks. -/
def PendingUnique (s : CState) : Prop :=
  ∀ cid₁ ∈ s.pending, ∀ cid₂ ∈ s.pending, ∀ cp₁ cp₂,
    s.checkpoints.lookup cid₁ = some cp₁ →
    s.checkpoints.lookup cid₂ = some cp₂ →
    cid₁ ≠ cid₂ → cp₁.taskId ≠ cp₂.taskId

/-- The inductive invariant of the disciplined system. -/
def Inv (s : CState) : Prop :=
  PendingInv s ∧ PendingUnique s

/-- The checkpoint record approve writes back. -/
def cpApproved (cp : CCheckpoint) (now : Nat) : CCheckpoint :=
  { cp with status := .approved, resolvedAt := some now, resolvedBy := some "user" }

/-- The checkpoint record reject writes back. -/
def cpRejected (cp : CCheckpoint) (reason : String) (now : Nat) : CCheckpoint :=
  { cp with status := .rejected, resolvedAt := some now,
            resolvedBy := some "user", rejectionReason := some reason }

/-- A concrete reachable state: create a task, plan it, activate it,
then create a checkpoint on it. -/
def c2WitState : CState :=
  (createCp (updateStatusC (updateStatusC (createTask initState "t" 0)
    "t" .planned none none 1).1 "t" .active none none 2).1 "c" "t" "ti" "d" 3).1

/-! Service-level world: the store as the reactor generation of the
code (event_bus.py, task_dispatcher.py) sees it.  Task status uses the
full spec lifecycle (SpecStatus, including testing), tasks carry the
fields those services read, and checkpoints carry source_role. -/

/-- Modelled from the spec: the agent roles of spec section 3.1.  The
shipped models/agent.py only declares DEV, PM and ARCHITECT, while
event_bus.py also matches on AgentRole.REVIEWER and AgentRole.QA. -/
inductive AgentRole where
  | dev
  | pm
  | architect
  | reviewer
  | qa
  | docs
deriving DecidableEq, Repr

/-- AgentStatus from models/agent.py. -/
inductive AgentStatus where
  | idle
  | starting
  | activeA
  | stopping
  | failed
deriving DecidableEq, Repr

/-- The slice of an AgentInfo record the reactor reads. -/
structure AgentRec where
  role : AgentRole
  status : AgentStatus
  containerId : Option String
deriving DecidableEq, Repr

/-- Review / QA mode from models/config.py (QAMode mirrors ReviewMode;
QAMode itself is absent from the shipped config model and is modelled
from the spec). -/
inductive RMode where
  | perSubtask
  | perCampaign
deriving DecidableEq, Repr

/-- The agent settings the services read.  reviewer fields exist in the
shipped models/config.py; the qa, parallel and worktree fields are
modelled from the spec (the services read them, the shipped AgentConfig
lacks them). -/
structure Settings where
  architectReview : Bool
  reviewerEnabled : Bool
  reviewMode : RMode
  reviewerMaxRetries : Nat
  qaEnabled : Bool
  qaMode : RMode
  qaMaxRetries : Nat
  parallelEnabled : Bool
  worktreeBase : String
deriving DecidableEq, Repr

/-- self.settings.agent.reviewer_enabled if self.settings else False. -/
def ctxReviewerEnabled : Option Settings → Bool
  | some st => st.reviewerEnabled
  | none => false

/-- self.settings.agent.review_mode if self.settings else PER_SUBTASK. -/
def ctxReviewMode : Option Settings → RMode
  | some st => st.reviewMode
  | none => .perSubtask

/-- self.settings.agent.qa_enabled if self.settings else False. -/
def ctxQaEnabled : Option Settings → Bool
  | some st => st.qaEnabled
  | none => false

/-- self.settings.agent.qa_mode if self.settings else PER_SUBTASK. -/
def ctxQaMode : Option Settings → RMode
  | some st => st.qaMode
  | none => .perSubtask

/-- self.settings.agent.worktree_base if self.settings else the
literal default used throughout event_bus.py. -/
def ctxWorktreeBase : Option Settings → String
  | some st => st.worktreeBase
  | none => "/workspace-worktrees"

/-- Side effects on collaborators (git, spawner, pub/sub, web sockets,
event-bus hooks) recorded as a trace. -/
inductive Act where
  | logAppend
  | broadcast
  | gitCommit (target : String)
  | mergeBranch (branch : String)
  | resolveTheirs (files : List String)
  | commitMergeRes
  | abortMerge
  | removeWorktree (path : String)
  | deleteBranch (branch : String)
  | spawn (role : AgentRole) (taskId : String)
  | dispatchSingleCall (taskId : String)
  | collectLogs (agentId : String)
  | createCheckpointCall (sourceRole : Option String) (taskId : String)
  | hookApproved (taskId : String) (sourceRole : Option String)
  | hookRejected (taskId : String) (sourceRole : Option String)
deriving DecidableEq, Repr

/-- The slice of a Task record that the reactor-generation services
read and write. -/
structure STask where
  status : SpecStatus
  history : List TaskEvent
  agentOutputs : List (String × String)
  parentId : Option String
  subtaskIds : List String
  branchName : Option String
  assignedTo : Option String
  title : String
  descr : String
  updatedAt : Nat
deriving DecidableEq, Repr

/-- Checkpoint as the reactor generation uses it (source_role is set at
creation). -/
structure SCheckpoint where
  taskId : String
  title : String
  descr : String
  status : CpStatus
  resolvedAt : Option Nat
  resolvedBy : Option String
  rejectionReason : Option String
  sourceRole : Option String
deriving DecidableEq, Repr

/-- The service-level store state, plus the recorded effect trace. -/
structure SState where
  tasks : List (String × STask)
  checkpoints : List (String × SCheckpoint)
  pending : List String
  agents : List (String × AgentRec)
  trace : List Act
deriving DecidableEq, Repr

/-- Append one effect to the trace. -/
def emit (s : SState) (a : Act) : SState :=
  { s with trace := s.trace ++ [a] }

/-- String value of each spec status member. -/
def specStatusName : SpecStatus → String
  | .created => "created"
  | .planned => "planned"
  | .active => "active"
  | .review => "review"
  | .blocked => "blocked"
  | .rejected => "rejected"
  | .testing => "testing"
  | .done => "done"

/-- TaskStore.update_status as the reactor generation relies on it:
identical to updateStatusC, over the spec lifecycle table (the testing
rows are modelled from the spec, see SpecStatus). -/
def updateStatusS (s : SState) (id : String) (new : SpecStatus)
    (evBy evDetail : Option String) (now : Nat) :
    SState × Except String Unit :=
  match s.tasks.lookup id with
  | none => (s, .error "task not found")
  | some t =>
      if new ∈ specTransitions t.status then
        let ev : TaskEvent :=
          ⟨now, "status_change:" ++ specStatusName new, evBy, evDetail⟩
        let t' : STask := { t with status := new, history := t.history ++ [ev],
                                   updatedAt := now }
        ({ s with tasks := updA s.tasks id t' }, .ok ())
      else
        (s, .error "invalid transition")

/-- TaskStore.update (set the record, bump updated_at). -/
def updateTaskS (s : SState) (id : String) (t : STask) (now : Nat) : SState :=
  { s with tasks := updA s.tasks id { t with updatedAt := now } }

/-- Modelled from the spec: CheckpointManager.create taking the
source_role argument that every call site in event_bus.py passes; the
shipped checkpoint_manager.py lacks the parameter.  Persist and index
the pending checkpoint first, then force the task to BLOCKED through
the store (raising, with the writes kept, when the task is not
ACTIVE). -/
def createCpS (s : SState) (cpId taskId title descr : String)
    (sourceRole : Option String) (now : Nat) :
    SState × Except String SCheckpoint :=
  let cp : SCheckpoint :=
    ⟨taskId, title, descr, .pending, none, none, none, sourceRole⟩
  let s1 : SState :=
    { s with checkpoints := updA s.checkpoints cpId cp
             pending := s.pending ++ [cpId] }
  match updateStatusS s1 taskId .blocked (some "checkpoint")
      (some ("checkpoint=" ++ cpId ++ ": " ++ title)) now with
  | (s2, .ok _) => (s2, .ok cp)
  | (s2, .error e) => (s2, .error e)

/-- CheckpointManager.approve over the service-level store. -/
def approveCpS (s : SState) (cpId : String) (now : Nat) :
    SState × Except String (Option SCheckpoint) :=
  match s.checkpoints.lookup cpId with
  | none => (s, .ok none)
  | some cp =>
      let cp' : SCheckpoint :=
        { cp with status := .approved, resolvedAt := some now,
                  resolvedBy := some "user" }
      let s1 : SState :=
        { s with checkpoints := updA s.checkpoints cpId cp'
                 pending := zrem s.pending cpId }
      match updateStatusS s1 cp.taskId .active (some "user")
          (some ("checkpoint " ++ cpId ++ " approved")) now with
      | (s2, .ok _) => (s2, .ok (some cp'))
      | (s2, .error e) => (s2, .error e)

/-- CheckpointManager.reject over the service-level store. -/
def rejectCpS (s : SState) (cpId reason : String) (now : Nat) :
    SState × Except String (Option SCheckpoint) :=
  match s.checkpoints.lookup cpId with
  | none => (s, .ok none)
  | some cp =>
      let cp' : SCheckpoint :=
        { cp with status := .rejected, resolvedAt := some now,
                  resolvedBy := some "user", rejectionReason := some reason }
      let s1 : SState :=
        { s with checkpoints := updA s.checkpoints cpId cp'
                 pending := zrem s.pending cpId }
      match s1.tasks.lookup cp.taskId with
      | some t =>
          if t.status = .blocked then
            match updateStatusS s1 cp.taskId .active (some "user")
                (some ("checkpoint " ++ cpId ++ " rejected: " ++ reason)) now with
            | (s2, .ok _) => (s2, .ok (some cp'))
            | (s2, .error e) => (s2, .error e)
          else (s1, .ok (some cp'))
      | none => (s1, .ok (some cp'))

/-! The checkpoint HTTP router (routers/checkpoints.py).  The handlers
call the manager and then fire the event-bus hook; the invocation of
the hook is recorded on the trace with exactly the arguments the source
passes. -/

/-- POST /checkpoints/id/approve: manager.approve, 404 when the
checkpoint does not exist, then event_bus.on_checkpoint_approved is
called with cp.task_id only — the source_role parameter is not passed
and defaults to None. -/
def approveRoute (s : SState) (cpId : String) (now : Nat) :
    SState × Except String SCheckpoint :=
  match approveCpS s cpId now with
  | (s1, .ok none) => (s1, .error "404 checkpoint not found")
  | (s1, .ok (some cp)) => (emit s1 (.hookApproved cp.taskId none), .ok cp)
  | (s1, .error e) => (s1, .error e)

/-- POST /checkpoints/id/reject: manager.reject, 404 when missing, then
event_bus.on_checkpoint_rejected with cp.task_id only (source_role
again defaulted to None). -/
def rejectRoute (s : SState) (cpId reason : String) (now : Nat) :
    SState × Except String SCheckpoint :=
  match rejectCpS s cpId reason now with
  | (s1, .ok none) => (s1, .error "404 checkpoint not found")
  | (s1, .ok (some cp)) => (emit s1 (.hookRejected cp.taskId none), .ok cp)
  | (s1, .error e) => (s1, .error e)

/-! Messages (models/messages.py) and the reactor entry points
(event_bus.py).  Handlers for roles whose behaviour a claim does not
inspect are passed as parameters: they stand for the corresponding
private methods of EventBus, which are long prompt-building routines
over the parsers. -/

/-- MessageType from models/messages.py. -/
inductive MsgType where
  | taskAssignment
  | taskCancel
  | taskUpdate
  | taskComplete
  | taskFailed
  | checkpointRequest
  | logEntry
  | statusUpdate
  | checkpointNotification
  | agentEvent
deriving DecidableEq, Repr

/-- A Message envelope; data is kept as a string map, read with
msg.data.get(key, "") semantics. -/
structure Msg where
  type : MsgType
  taskId : Option String
  agentId : Option String
  data : List (String × String)
deriving DecidableEq, Repr

/-- msg.data.get("output", ""). -/
def msgOutput (m : Msg) : String := (m.data.lookup "output").getD ""

/-- A handler for a message, in explicit state-passing form. -/
def SHandler : Type := Msg → SState → SState × Except String Unit

/-- A continuation taking the affected task id. -/
def STaskCont : Type := String → SState → SState × Except String Unit

/-- EventBus._cleanup_agent: collect container logs when a container
handle exists, then remove the agent record. -/
def cleanupAgent (s : SState) (agentId : String) : SState :=
  let s1 :=
    match s.agents.lookup agentId with
    | some a => if a.containerId.isSome then emit s (.collectLogs agentId) else s
    | none => s
  { s1 with agents := delA s1.agents agentId }

/-- EventBus._update_agent_status: on TASK_COMPLETE or TASK_FAILED the
agent goes to STOPPING; otherwise a STARTING agent goes to ACTIVE. -/
def updateAgentStatus (s : SState) (m : Msg) : SState :=
  match m.agentId with
  | none => s
  | some aid =>
      match s.agents.lookup aid with
      | none => s
      | some a =>
          if m.type = .taskComplete ∨ m.type = .taskFailed then
            { s with agents := updA s.agents aid { a with status := .stopping } }
          else if a.status = .starting then
            { s with agents := updA s.agents aid { a with status := .activeA } }
          else s

/-- The commit location of the best-effort dev commit: the task's
worktree when it has a branch, else the main workspace. -/
def devCommitTarget (ctx : Option Settings) (tid : String) (t : STask) : String :=
  if t.branchName.isSome then ctxWorktreeBase ctx ++ "/task-" ++ tid
  else "workspace"

/-- EventBus._on_dev_complete: store the dev output, best-effort git
commit (in the worktree when the task has a branch), then route to
reviewer, to QA, or straight through REVIEW to DONE followed by the
subtask-done path.  spawnRevH and spawnQAH stand for _spawn_reviewer
and _spawn_qa, contH for _handle_subtask_done. -/
def onDevComplete (ctx : Option Settings)
    (spawnRevH spawnQAH contH : STaskCont)
    (m : Msg) (now : Nat) (s : SState) : SState × Except String Unit :=
  match m.taskId with
  | none => (s, .ok ())
  | some tid =>
      match s.tasks.lookup tid with
      | none => (s, .ok ())
      | some t =>
          let t1 : STask :=
            { t with agentOutputs := updA t.agentOutputs "dev" (msgOutput m) }
          let s1 := updateTaskS s tid t1 now
          let s2 := emit s1 (.gitCommit (devCommitTarget ctx tid t1))
          if ctxReviewerEnabled ctx ∧ ctxReviewMode ctx = .perSubtask ∧
              t1.parentId.isSome then
            match updateStatusS s2 tid .review (some "agent")
                (some "dev complete, awaiting review") now with
            | (s3, .ok _) => spawnRevH tid s3
            | (s3, .error e) => (s3, .error e)
          else if ctxQaEnabled ctx ∧ ctxQaMode ctx = .perSubtask ∧
              t1.parentId.isSome then
            match updateStatusS s2 tid .testing (some "agent")
                (some "dev complete, awaiting QA") now with
            | (s3, .ok _) => spawnQAH tid s3
            | (s3, .error e) => (s3, .error e)
          else
            match updateStatusS s2 tid .review (some "agent")
                (some "task completed") now with
            | (s3, .error e) => (s3, .error e)
            | (s3, .ok _) =>
                match updateStatusS s3 tid .done (some "orchestrator")
                    (some "auto-approved (Phase 1)") now with
                | (s4, .error e) => (s4, .error e)
                | (s4, .ok _) => contH tid s4

/-- EventBus._on_task_complete: require task_id and agent_id, look the
agent up and take its role, falling back to DEV when no record exists,
dispatch to the role handler, then clean the agent up (skipped when the
handler raises, as in the source). -/
def onTaskComplete (ctx : Option Settings)
    (pmH archH revH qaH : SHandler)
    (spawnRevH spawnQAH contH : STaskCont)
    (m : Msg) (now : Nat) (s : SState) : SState × Except String Unit :=
  match m.taskId, m.agentId with
  | some tid, some aid =>
      if tid = "" ∨ aid = "" then (s, .ok ())
      else
        let role :=
          match s.agents.lookup aid with
          | some a => a.role
          | none => AgentRole.dev
        let step :=
          match role with
          | .pm => pmH m s
          | .architect => archH m s
          | .reviewer => revH m s
          | .qa => qaH m s
          | _ => onDevComplete ctx spawnRevH spawnQAH contH m now s
        match step with
        | (s1, .ok _) => (cleanupAgent s1 aid, .ok ())
        | (s1, .error e) => (s1, .error e)
  | _, _ => (s, .ok ())

/-- EventBus._handle_agent_message: append to the activity log, update
the agent status, dispatch on the message type — all inside a
try/except that logs and swallows any error — then broadcast to the
web sockets.  failedH stands for _on_task_failed. -/
def handleAgentMessage (ctx : Option Settings)
    (pmH archH revH qaH : SHandler)
    (spawnRevH spawnQAH contH : STaskCont)
    (failedH : SHandler)
    (m : Msg) (now : Nat) (s : SState) : SState × Except String Unit :=
  let s0 := emit s .logAppend
  let s1 := updateAgentStatus s0 m
  let step :=
    match m.type with
    | .taskComplete => onTaskComplete ctx pmH archH revH qaH
        spawnRevH spawnQAH contH m now s1
    | .taskFailed => failedH m s1
    | _ => (s1, .ok ())
  let s2 := step.1
  (emit s2 .broadcast, .ok ())

/-! The task dispatcher (task_dispatcher.py). -/

/-- self.settings.agent.reviewer_max_retries if self.settings else 1. -/
def ctxReviewerMaxRetries : Option Settings → Nat
  | some st => st.reviewerMaxRetries
  | none => 1

/-- Substring containment, the embedding of the Python in operator on
strings (total; the needle is never empty where the dispatcher uses
it). -/
def strContains (hay pat : String) : Bool :=
  (hay.splitOn pat).length ≥ 2

/-- int(...) on the decimal strings the retry counters use.  The
counters are only ever written via str() of a non-negative int, so the
unsigned-decimal fragment of int() suffices: a non-empty all-digit
string parses to its value, anything else raises ValueError. -/
def pyIntOfString (s : String) : Except String Int :=
  match s.data with
  | [] => .error "invalid literal for int"
  | cs =>
      if cs.all Char.isDigit then
        .ok (cs.foldl (fun n c => n * 10 + ((c.toNat : Int) - 48)) 0)
      else .error "invalid literal for int"

/-- The architect-guidance injection at the head of dispatch_single:
when the parent carries parseable architect output whose formatted
guidance is not yet a substring of the task's description, append it
and persist. -/
def injectArchCtx (archCtx : STask → Option String)
    (s : SState) (taskId : String) (t : STask) (now : Nat) : SState × STask :=
  match t.parentId with
  | some pid =>
      match s.tasks.lookup pid with
      | some parent =>
          match archCtx parent with
          | some ctx =>
              if ctx ≠ "" ∧ ¬ strContains t.descr ctx then
                let t' := { t with descr := t.descr ++ ctx }
                (updateTaskS s taskId t' now, t')
              else (s, t)
          | none => (s, t)
      | none => (s, t)
  | none => (s, t)

/-- TaskDispatcher.dispatch_single.  archCtx stands for
_format_architect_context (a pure formatter over the architect parser,
out of scope of the claims); spawnOut is the outcome of
spawner.spawn_agent: the new agent id, or none when the spawn raises
(the except branch returns False). -/
def dispatchSingleS (archCtx : STask → Option String)
    (spawnOut : Option String)
    (s : SState) (taskId : String) (t : STask) (now : Nat) :
    SState × Except String Bool :=
  let s := emit s (.dispatchSingleCall taskId)
  let s1t := injectArchCtx archCtx s taskId t now
  let s1 := s1t.1
  match spawnOut with
  | none => (s1, .ok false)
  | some aid =>
      let s2 := emit s1 (.spawn .dev taskId)
      let s3 : SState :=
        { s2 with agents := updA s2.agents aid ⟨.dev, .starting, some aid⟩ }
      match updateStatusS s3 taskId .active (some "orchestrator")
          (some ("retry agent=" ++ aid)) now with
      | (s4, .error e) => (s4, .error e)
      | (s4, .ok _) =>
          match s4.tasks.lookup taskId with
          | some tu =>
              (updateTaskS s4 taskId { tu with assignedTo := some aid } now,
               .ok true)
          | none => (s4, .ok true)

/-- The statuses of a parent's children, in subtask_ids order; a child
missing from the store is skipped, as the loop's None check does. -/
def childStatuses (s : SState) (p : STask) : List SpecStatus :=
  p.subtaskIds.filterMap (fun cid => (s.tasks.lookup cid).map (fun c => c.status))

/-- The classification loop of TaskDispatcher.on_subtask_complete,
returning (all_done, any_failed, any_running).  A REJECTED child sets
any_failed but does not clear all_done — the elif chain never reaches
the not-DONE branch for it. -/
def classifyChildren : List SpecStatus → Bool × Bool × Bool
  | [] => (true, false, false)
  | st :: rest =>
      let r := classifyChildren rest
      if st = .rejected then (r.1, true, r.2.2)
      else if st = .active ∨ st = .review ∨ st = .testing then
        (false, r.2.1, true)
      else if st = .done then (r.1, r.2.1, r.2.2)
      else (false, r.2.1, r.2.2)

/-- TaskDispatcher.on_subtask_complete.  dispAllH and dispNextH stand
for dispatch_all_ready and dispatch_next (worktree and spawner heavy;
both return None from this function whatever they do). -/
def onSubtaskComplete (parallel : Bool)
    (dispAllH : SState → String → SState × Nat)
    (dispNextH : SState → String → SState × Bool)
    (s : SState) (parentId : String) (now : Nat) :
    SState × Except String (Option String) :=
  match s.tasks.lookup parentId with
  | none => (s, .ok none)
  | some p =>
      if p.status = .blocked then (s, .ok none)
      else
        let c := classifyChildren (childStatuses s p)
        if c.1 then (s, .ok (some "all_done"))
        else if c.2.1 ∧ ¬ c.2.2 then
          match updateStatusS s parentId .review (some "orchestrator")
              (some "sub-task failed") now with
          | (s1, .error e) => (s1, .error e)
          | (s1, .ok _) =>
              match updateStatusS s1 parentId .rejected (some "orchestrator")
                  (some "sub-task failure") now with
              | (s2, .error e) => (s2, .error e)
              | (s2, .ok _) => (s2, .ok (some "failed"))
        else if c.2.1 then (s, .ok none)
        else if parallel then ((dispAllH s parentId).1, .ok none)
        else ((dispNextH s parentId).1, .ok none)

/-! The reviewer reject path (EventBus._reviewer_reject). -/

/-- ReviewFinding from reviewer_parser.py. -/
structure ReviewFinding where
  category : String
  severity : String
  file : String
  findingDescr : String
  suggestion : String
deriving DecidableEq, Repr

/-- ReviewResult from reviewer_parser.py. -/
structure ReviewResult where
  verdict : String
  summary : String
  findings : List ReviewFinding
  securityConcerns : List String
deriving DecidableEq, Repr

/-- The checkpoint description _reviewer_reject builds when retries are
exhausted. -/
def reviewerCpDesc (t : STask) (maxRetries : Nat) (review : ReviewResult) :
    String :=
  let baseLines : List String :=
    ["Reviewer rejected task '" ++ t.title ++ "' after " ++
       toString maxRetries ++ " DEV retry(ies).",
     "",
     "**Summary**: " ++ review.summary,
     ""]
  let findingLines : List String :=
    if review.findings.isEmpty then []
    else
      ["**Findings:**"] ++
      review.findings.map (fun f =>
        "- [" ++ f.severity ++ "] " ++ f.category ++ " (" ++ f.file ++ "): " ++
          f.findingDescr) ++
      [""]
  let nextLines : List String :=
    ["**Next steps:**",
     "- **Approve** to accept the code as-is and continue the campaign.",
     "- **Reject** to abandon this task. The campaign will be marked as failed.",
     ""]
  String.intercalate "\n" (baseLines ++ findingLines ++ nextLines)

/-- EventBus._reviewer_reject: read the retry counter from
agent_outputs (absent means "0"), and either store feedback, bump the
counter, walk REVIEW to REJECTED to PLANNED and re-dispatch DEV via
dispatch_single, or, once retries are exhausted, create a reviewer
checkpoint.  cpId is the id the checkpoint create mints. -/
def reviewerReject (ctx : Option Settings) (archCtx : STask → Option String)
    (spawnOut : Option String) (cpId : String)
    (s : SState) (taskId : String) (t : STask) (review : ReviewResult)
    (now : Nat) : SState × Except String Unit :=
  let maxRetries := ctxReviewerMaxRetries ctx
  match pyIntOfString ((t.agentOutputs.lookup "reviewer_retry_count").getD "0") with
  | .error e => (s, .error e)
  | .ok retryCount =>
      if retryCount < (maxRetries : Int) then
        let outs1 := updA t.agentOutputs "reviewer_feedback" review.summary
        let outs2 := updA outs1 "reviewer_retry_count" (toString (retryCount + 1))
        let s1 := updateTaskS s taskId { t with agentOutputs := outs2 } now
        let det1 := "rejected (retry " ++ toString (retryCount + 1) ++ "/" ++
          toString maxRetries ++ "): " ++ review.summary.take 200
        match updateStatusS s1 taskId .rejected (some "reviewer") (some det1) now with
        | (s2, .error e) => (s2, .error e)
        | (s2, .ok _) =>
            match updateStatusS s2 taskId .planned (some "orchestrator")
                (some "queued for retry") now with
            | (s3, .error e) => (s3, .error e)
            | (s3, .ok _) =>
                match s3.tasks.lookup taskId with
                | some t' =>
                    let r := dispatchSingleS archCtx spawnOut s3 taskId t' now
                    match r.2 with
                    | .ok _ => (r.1, .ok ())
                    | .error e => (r.1, .error e)
                | none => (s3, .ok ())
      else
        match createCpS s cpId taskId ("Review failed: " ++ t.title)
            (reviewerCpDesc t maxRetries review) (some "reviewer") now with
        | (s1, .ok _) => (s1, .ok ())
        | (s1, .error e) => (s1, .error e)

/-! The merge protocol (event_bus.py, _AUTO_RESOLVE_PATTERNS,
_can_auto_resolve and _merge_and_cleanup). -/

/-- fnmatch.fnmatch for the shell-glob subset the auto-resolve list
uses (asterisk and question mark; the list contains no bracket
classes).  As in fnmatch, the asterisk matches any run of characters,
slashes included (it is translated to a dot-star regex), and the whole
name must match; case normalisation on POSIX is the identity.  The
asterisk case tries every suffix of the name, the textbook equivalent
of the dot-star, keeping the recursion structural on the pattern. -/
def globMatch : List Char → List Char → Bool
  | [], cs => cs.isEmpty
  | '*' :: ps, cs => cs.tails.any (fun suf => globMatch ps suf)
  | '?' :: ps, _ :: cs => globMatch ps cs
  | '?' :: _, [] => false
  | p :: ps, c :: cs => p == c && globMatch ps cs
  | _ :: _, [] => false

/-- fnmatch.fnmatch(f, pat) on strings. -/
def fnmatchB (f pat : String) : Bool :=
  globMatch pat.toList f.toList

/-- _AUTO_RESOLVE_PATTERNS from event_bus.py. -/
def autoResolvePatterns : List String :=
  [".coverage", ".coverage.*", "htmlcov/*", "*.pyc", "*.pyo",
   "__pycache__/*", "*.egg-info/*", "dist/*", "build/*", ".eggs/*",
   ".pytest_cache/*", ".mypy_cache/*", ".ruff_cache/*", ".tox/*",
   ".DS_Store", "Thumbs.db", "*.log"]

/-- _can_auto_resolve from event_bus.py: every conflicted file matches
some auto-resolve pattern. -/
def canAutoResolve (conflictFiles : List String) : Bool :=
  conflictFiles.all (fun f => autoResolvePatterns.any (fun pat => fnmatchB f pat))

/-- MergeResult from git_ops.py. -/
structure MergeRes where
  success : Bool
  commitHash : Option String
  conflictFiles : List String
deriving DecidableEq, Repr

/-- The merge-conflict checkpoint description built in
_merge_and_cleanup. -/
def mergeCpDesc (t : STask) (branch : String) (files : List String) : String :=
  let conflictList := String.intercalate "\n" (files.map (fun f => "- `" ++ f ++ "`"))
  "Merge conflict when integrating '" ++ t.title ++ "' (branch `" ++ branch ++
    "`).\n\n**Conflicted files:**\n" ++ conflictList ++
    "\n\nResolve the conflicts in `/workspace` (the working branch), then" ++
    " approve this checkpoint to continue."

/-- EventBus._merge_and_cleanup, with merge_branch's outcome supplied
as mr (the git subprocess is a collaborator; the except-branch for a
raising merge call, which keeps the branch and returns True, is the
environmental path not modelled here) and the git cleanup calls
recorded on the trace.  On real conflicts the merge is aborted and a
merge_conflict checkpoint created through the manager — whose blocking
transition raises for the DONE task, with the checkpoint already
persisted and indexed, exactly as createCpS embeds. -/
def mergeAndCleanup (ctx : Option Settings) (cpId : String)
    (s : SState) (taskId : String) (t : STask) (branch : String)
    (mr : MergeRes) (now : Nat) : SState × Except String Bool :=
  let wt := ctxWorktreeBase ctx ++ "/task-" ++ taskId
  let s0 := emit s (.mergeBranch branch)
  if mr.success then
    (emit (emit s0 (.removeWorktree wt)) (.deleteBranch branch), .ok true)
  else if ¬ mr.conflictFiles.isEmpty then
    if canAutoResolve mr.conflictFiles then
      let s1 := emit (emit s0 (.resolveTheirs mr.conflictFiles)) .commitMergeRes
      (emit (emit s1 (.removeWorktree wt)) (.deleteBranch branch), .ok true)
    else
      let s1 := emit s0 .abortMerge
      match createCpS s1 cpId taskId ("Merge conflict: " ++ t.title)
          (mergeCpDesc t branch mr.conflictFiles) (some "merge_conflict") now with
      | (s2, .ok _) => (s2, .ok false)
      | (s2, .error e) => (s2, .error e)
  else
    (emit s0 (.removeWorktree wt), .ok true)

/-! The PM plan validator (pm_parser.py, _validate_plan). -/

/-- JSON values as json.loads produces them: null, bool, int, float,
string, array, object.  A Python bool is an int subtype, which the
depends_on filter below honours. -/
inductive JValue where
  | jnull
  | jbool (b : Bool)
  | jint (n : Int)
  | jfloat (q : Rat)
  | jstr (s : String)
  | jarr (xs : List JValue)
  | jobj (kvs : List (String × JValue))

/-- Python truthiness of a JSON value (the not-title test). -/
def jTruthy : JValue → Bool
  | .jnull => false
  | .jbool b => b
  | .jint n => decide (n ≠ 0)
  | .jfloat q => decide (q ≠ 0)
  | .jstr s => decide (s ≠ "")
  | .jarr xs => ¬ xs.isEmpty
  | .jobj kvs => ¬ kvs.isEmpty

/-- dict.get(k): json.loads object keys are unique, so a first-match
lookup is exact. -/
def jGet (kvs : List (String × JValue)) (k : String) : Option JValue :=
  kvs.lookup k

/-- SubTaskPlan from pm_parser.py; title, description and the
passed-through fields keep the raw JSON values the code stores. -/
structure SubTaskPlanE where
  title : JValue
  descrJ : JValue
  acceptanceCriteria : JValue
  estimatedComplexity : JValue
  dependsOn : List Int

/-- PMPlan from pm_parser.py. -/
structure PMPlanE where
  analysis : JValue
  subtasks : List SubTaskPlanE

/-- The per-entry depends_on filter of _validate_plan at raw index i:
keep d only when isinstance(d, int) — which also admits bools,
int-valued in Python — and 0 less-equal d less-than i. -/
def keepDep (i : Nat) : JValue → Option Int
  | .jint n => if 0 ≤ n ∧ n < (i : Int) then some n else none
  | .jbool b =>
      let n : Int := if b then 1 else 0
      if 0 ≤ n ∧ n < (i : Int) then some n else none
  | _ => none

/-- The body of the per-subtask loop of _validate_plan at raw index i:
skip non-dict items and items whose title or description is falsy;
filter depends_on entries through keepDep. -/
def validateItem (i : Nat) (st : JValue) : Option SubTaskPlanE :=
  match st with
  | .jobj kvs =>
      let title := jGet kvs "title"
      let descr := jGet kvs "description"
      if (title.elim false jTruthy) && (descr.elim false jTruthy) then
        let deps : List Int :=
          match (jGet kvs "depends_on").getD (.jarr []) with
          | .jarr ds => ds.filterMap (keepDep i)
          | _ => []
        some ⟨(title.getD .jnull), (descr.getD .jnull),
              (jGet kvs "acceptance_criteria").getD (.jarr []),
              (jGet kvs "estimated_complexity").getD (.jstr "medium"),
              deps⟩
      else none
  | _ => none

/-- _validate_plan from pm_parser.py: require a non-empty subtasks
list, validate each item, return None when no valid subtask remains. -/
def validatePlan (data : JValue) : Option PMPlanE :=
  match data with
  | .jobj kvs =>
      match (jGet kvs "subtasks").getD (.jarr []) with
      | .jarr raw =>
          if raw.isEmpty then none
          else
            let subs := raw.enum.filterMap (fun p => validateItem p.1 p.2)
            if subs.isEmpty then none
            else some ⟨(jGet kvs "analysis").getD (.jstr ""), subs⟩
      | _ => none
  | _ => none

/-- A child status counted as done-or-rejected by the classification
loop (the branch pair that keeps all_done true). -/
def isDoneOrRejected : SpecStatus → Bool
  | .done => true
  | .rejected => true
  | _ => false

/-- Membership in _RUNNING_STATUSES from task_dispatcher.py. -/
def isRunningStatus : SpecStatus → Bool
  | .active => true
  | .review => true
  | .testing => true
  | _ => false

/-- The REJECTED test of the classification loop. -/
def isRejectedB : SpecStatus → Bool
  | .rejected => true
  | _ => false

/-- The history event update_status appends (code level). -/
def statusEventC (new : TaskStatus) (evBy evDet : Option String)
    (now : Nat) : TaskEvent :=
  ⟨now, "status_change:" ++ statusName new, evBy, evDet⟩

/-- The task record after a successful update_status (code level). -/
def appliedC (t : CTask) (new : TaskStatus) (evBy evDet : Option String)
    (now : Nat) : CTask :=
  ⟨new, t.history ++ [statusEventC new evBy evDet now], now⟩

/-- The history event update_status appends (service level). -/
def statusEventS (new : SpecStatus) (evBy evDet : Option String)
    (now : Nat) : TaskEvent :=
  ⟨now, "status_change:" ++ specStatusName new, evBy, evDet⟩

/-- The task record after a successful update_status (service level). -/
def appliedS (t : STask) (new : SpecStatus) (evBy evDet : Option String)
    (now : Nat) : STask :=
  { t with status := new, history := t.history ++ [statusEventS new evBy evDet now],
           updatedAt := now }

/-! Concrete stores and stub collaborators used in the closed
statements. -/

/-- A store holding one ACTIVE task. -/
def c1Store : CState := ⟨[("t", ⟨.active, [], 0⟩)], [], []⟩

/-- A store holding one DONE task (the state a merged sub-task is in
when _merge_and_cleanup creates its merge_conflict checkpoint). -/
def c2ceState : CState := ⟨[("t", ⟨.done, [], 0⟩)], [], []⟩

/-- An ACTIVE campaign parent with a single child. -/
def c3Parent : STask := ⟨.active, [], [], none, ["c"], none, none, "P", "", 0⟩

/-- A REJECTED child. -/
def c3Child : STask := ⟨.rejected, [], [], some "p", [], none, none, "C", "", 0⟩

/-- The store for the sub-task classification counterexample. -/
def c3State : SState := ⟨[("p", c3Parent), ("c", c3Child)], [], [], [], []⟩

/-- An ACTIVE parent with a REJECTED and a PLANNED child. -/
def c3wParent : STask := ⟨.active, [], [], none, ["c1", "c2"], none, none, "P", "", 0⟩

/-- A REJECTED first child. -/
def c3wChild1 : STask := ⟨.rejected, [], [], some "p", [], none, none, "C1", "", 0⟩

/-- A PLANNED second child. -/
def c3wChild2 : STask := ⟨.planned, [], [], some "p", [], none, none, "C2", "", 0⟩

/-- The store on which on_subtask_complete reports failed. -/
def c3wState : SState :=
  ⟨[("p", c3wParent), ("c1", c3wChild1), ("c2", c3wChild2)], [], [], [], []⟩

/-- A dispatch_all_ready stub that dispatches nothing. -/
def dispAllNop : SState → String → SState × Nat := fun s _ => (s, 0)

/-- A dispatch_next stub that dispatches nothing. -/
def dispNextNop : SState → String → SState × Bool := fun s _ => (s, false)

/-- A BLOCKED task owned by a pending checkpoint. -/
def c4Task : STask := ⟨.blocked, [], [], none, [], none, none, "T", "", 0⟩

/-- A pending checkpoint carrying source_role qa. -/
def c4Cp : SCheckpoint := ⟨"t", "Ti", "D", .pending, none, none, none, some "qa"⟩

/-- The store for the router claims: one blocked task, one pending
checkpoint with a source role. -/
def c4State : SState := ⟨[("t", c4Task)], [("c", c4Cp)], ["c"], [], []⟩

/-- A role handler stub that does nothing. -/
def hNop : SHandler := fun _ s => (s, .ok ())

/-- A task continuation stub that does nothing. -/
def cNop : STaskCont := fun _ s => (s, .ok ())

/-- An already-approved checkpoint whose task has moved on to ACTIVE
(the state right after a first approve). -/
def c9cp : CCheckpoint := ⟨"t", "ti", "d", .approved, some 0, some "user", none, none⟩

/-- The store for the double-resolution claim. -/
def c9State : CState := ⟨[("t", ⟨.active, [], 0⟩)], [("c", c9cp)], []⟩

/-- A PM sub-task item missing its title. -/
def c8subB : JValue := JValue.jobj [("description", JValue.jstr "dB")]

/-- A PM sub-task item at raw index 2 with a mixed depends_on list. -/
def c8subC : JValue :=
  JValue.jobj [("title", JValue.jstr "C"), ("description", JValue.jstr "dC"),
    ("depends_on", JValue.jarr [JValue.jint 0, JValue.jint 2, JValue.jint 5,
      JValue.jbool true, JValue.jstr "x"])]

/-- What _validate_plan keeps of c8subC: indices 0 and 1 only. -/
def c8pC : SubTaskPlanE :=
  ⟨JValue.jstr "C", JValue.jstr "dC", JValue.jarr [], JValue.jstr "medium", [0, 1]⟩

/-- A reviewer task in REVIEW with no retry counter yet. -/
def c5Task : STask := ⟨.review, [], [], some "p", [], none, none, "R", "desc", 0⟩

/-- The store for the reviewer-retry claim. -/
def c5State : SState := ⟨[("t", c5Task)], [], [], [], []⟩

/-- A rejecting review. -/
def c5Review : ReviewResult := ⟨"reject", "bad", [], []⟩

/-- An architect-context formatter that finds nothing. -/
def archNone : STask → Option String := fun _ => none

/-- An empty store for the merge scenarios. -/
def mergeDemoState : SState := ⟨[], [], [], [], []⟩

/-- The DONE task whose branch is being merged. -/
def mergeDemoTask : STask := ⟨.done, [], [], some "p", [], some "b", none, "M", "", 0⟩

/-- A TASK_COMPLETE from an agent with no stored record. -/
def c10Msg : Msg := ⟨.taskComplete, some "t", some "a", [("output", "o")]⟩

/-- The store for the unknown-agent fallback claim. -/
def c10State : SState :=
  ⟨[("t", ⟨.active, [], [], some "p", [], none, none, "T", "", 0⟩)], [], [], [], []⟩

/-- A DONE sub-task, the target of a duplicated TASK_COMPLETE. -/
def c6Task : STask := ⟨.done, [], [], some "p", [], none, none, "T", "", 0⟩

/-- The store for the duplicate-delivery claims. -/
def c6State : SState := ⟨[("t", c6Task)], [], [], [], []⟩

/-- A duplicated TASK_COMPLETE message for the DONE task. -/
def c6Msg : Msg := ⟨.taskComplete, some "t", some "a", [("output", "o")]⟩

/-! Helper lemmas about the store primitives. -/

theorem lookup_updA_self {α : Type} (l : List (String × α)) (k : String) (v : α) :
    (updA l k v).lookup k = some v := by
  induction l with
  | nil => simp [updA, List.lookup]
  | cons hd tl ih =>
      obtain ⟨k', v'⟩ := hd
      by_cases h : k' = k
      · subst h
        simp [updA, List.lookup]
      · have hb : (k == k') = false := beq_eq_false_iff_ne.mpr (Ne.symm h)
        simp [updA, h, List.lookup, hb, ih]

theorem lookup_updA_ne {α : Type} (l : List (String × α)) (k j : String) (v : α)
    (h : j ≠ k) : (updA l k v).lookup j = l.lookup j := by
  have hb : (j == k) = false := beq_eq_false_iff_ne.mpr h
  induction l with
  | nil => simp [updA, List.lookup, hb]
  | cons hd tl ih =>
      obtain ⟨k', v'⟩ := hd
      by_cases hk : k' = k
      · subst hk
        simp [updA, List.lookup, hb]
      · simp only [updA, if_neg hk, List.lookup]
        cases hjk : (j == k') with
        | true => rfl
        | false => simp [ih]

theorem mem_zrem_iff (l : List String) (k x : String) :
    x ∈ zrem l k ↔ x ∈ l ∧ x ≠ k := by
  simp [zrem]

theorem not_mem_zrem_self (l : List String) (k : String) :
    k ∉ zrem l k := by
  simp [mem_zrem_iff]

theorem updateStatusC_some (s : CState) (id : String) (new : TaskStatus)
    (evBy evDet : Option String) (now : Nat) (t : CTask)
    (hl : s.tasks.lookup id = some t) :
    updateStatusC s id new evBy evDet now =
      if new ∈ VALID_TRANSITIONS t.status then
        ({ s with tasks := updA s.tasks id (appliedC t new evBy evDet now) }, .ok ())
      else (s, .error "invalid transition") := by
  simp [updateStatusC, hl, appliedC, statusEventC]

theorem updateStatusC_frame (s : CState) (id : String) (new : TaskStatus)
    (evBy evDet : Option String) (now : Nat) :
    (updateStatusC s id new evBy evDet now).1.checkpoints = s.checkpoints ∧
    (updateStatusC s id new evBy evDet now).1.pending = s.pending := by
  unfold updateStatusC
  cases s.tasks.lookup id with
  | none => exact ⟨rfl, rfl⟩
  | some t =>
      by_cases h : new ∈ VALID_TRANSITIONS t.status <;> simp [h]

theorem updateStatusC_lookup_ne (s : CState) (id : String) (new : TaskStatus)
    (evBy evDet : Option String) (now : Nat) (j : String) (hj : j ≠ id) :
    (updateStatusC s id new evBy evDet now).1.tasks.lookup j =
      s.tasks.lookup j := by
  unfold updateStatusC
  cases hl : s.tasks.lookup id with
  | none => rfl
  | some t =>
      by_cases h : new ∈ VALID_TRANSITIONS t.status
      · simp [h, lookup_updA_ne _ _ _ _ hj]
      · simp [h]

theorem updateStatusS_some (s : SState) (id : String) (new : SpecStatus)
    (evBy evDet : Option String) (now : Nat) (t : STask)
    (hl : s.tasks.lookup id = some t) :
    updateStatusS s id new evBy evDet now =
      if new ∈ specTransitions t.status then
        ({ s with tasks := updA s.tasks id (appliedS t new evBy evDet now) }, .ok ())
      else (s, .error "invalid transition") := by
  simp [updateStatusS, hl, appliedS, statusEventS]

theorem createCp_active (s : CState) (cpId taskId title descr : String)
    (now : Nat) (t : CTask)
    (hl : s.tasks.lookup taskId = some t) (hact : t.status = .active) :
    createCp s cpId taskId title descr now =
      (⟨updA s.tasks taskId
          (appliedC t .blocked (some "checkpoint")
            (some ("checkpoint=" ++ cpId ++ ": " ++ title)) now),
        updA s.checkpoints cpId ⟨taskId, title, descr, .pending, none, none, none, none⟩,
        s.pending ++ [cpId]⟩,
       .ok ⟨taskId, title, descr, .pending, none, none, none, none⟩) := by
  have hmem : TaskStatus.blocked ∈ VALID_TRANSITIONS t.status := by
    rw [hact]; decide
  simp only [createCp, updateStatusC]
  rw [show ({ s with checkpoints := updA s.checkpoints cpId ⟨taskId, title, descr, .pending, none, none, none, none⟩, pending := s.pending ++ [cpId] } : CState).tasks = s.tasks from rfl, hl]
  simp [hmem, appliedC, statusEventC]

theorem approveCp_resolves (s : CState) (cpId : String) (now : Nat)
    (cp : CCheckpoint) (t : CTask)
    (hc : s.checkpoints.lookup cpId = some cp)
    (ht : s.tasks.lookup cp.taskId = some t) (hb : t.status = .blocked) :
    approveCp s cpId now =
      (⟨updA s.tasks cp.taskId
          (appliedC t .active (some "user")
            (some ("checkpoint " ++ cpId ++ " approved")) now),
        updA s.checkpoints cpId (cpApproved cp now),
        zrem s.pending cpId⟩,
       .ok (some (cpApproved cp now))) := by
  have hmem : TaskStatus.active ∈ VALID_TRANSITIONS t.status := by
    rw [hb]; decide
  simp only [approveCp, hc, updateStatusC]
  rw [ht]
  simp [hmem, appliedC, statusEventC, cpApproved]

theorem rejectCp_resolves (s : CState) (cpId reason : String) (now : Nat)
    (cp : CCheckpoint) (t : CTask)
    (hc : s.checkpoints.lookup cpId = some cp)
    (ht : s.tasks.lookup cp.taskId = some t) (hb : t.status = .blocked) :
    rejectCp s cpId reason now =
      (⟨updA s.tasks cp.taskId
          (appliedC t .active (some "user")
            (some ("checkpoint " ++ cpId ++ " rejected: " ++ reason)) now),
        updA s.checkpoints cpId (cpRejected cp reason now),
        zrem s.pending cpId⟩,
       .ok (some (cpRejected cp reason now))) := by
  have hmem : TaskStatus.active ∈ VALID_TRANSITIONS t.status := by
    rw [hb]; decide
  simp only [rejectCp, hc, updateStatusC]
  rw [ht]
  simp [hb, appliedC, statusEventC, cpRejected, VALID_TRANSITIONS]

theorem step_preserves_inv {s s' : CState} (hInv : Inv s) (st : Step s s') :
    Inv s' := by
  obtain ⟨hP, hU⟩ := hInv
  cases st with
  | newTask id now hfresh =>
      constructor
      · intro cid hcid
        obtain ⟨cp, hc, hst, t, ht, hb⟩ := hP cid hcid
        refine ⟨cp, hc, hst, t, ?_, hb⟩
        have hne : cp.taskId ≠ id := by
          intro he
          rw [he, hfresh] at ht
          cases ht
        simpa [createTask, lookup_updA_ne _ _ _ _ hne] using ht
      · intro cid₁ h₁ cid₂ h₂ cp₁ cp₂ hc₁ hc₂ hne
        exact hU cid₁ h₁ cid₂ h₂ cp₁ cp₂ hc₁ hc₂ hne
  | taskMove id new evBy evDet now t hl hnb =>
      have hcf := updateStatusC_frame s id new evBy evDet now
      constructor
      · intro cid hcid
        rw [hcf.2] at hcid
        obtain ⟨cp, hc, hst, tb, ht, hb⟩ := hP cid hcid
        have hne : cp.taskId ≠ id := by
          intro he
          rw [he, hl] at ht
          cases ht
          exact hnb hb
        refine ⟨cp, ?_, hst, tb, ?_, hb⟩
        · rw [hcf.1]; exact hc
        · rw [updateStatusC_lookup_ne _ _ _ _ _ _ _ hne]; exact ht
      · intro cid₁ h₁ cid₂ h₂ cp₁ cp₂ hc₁ hc₂ hne
        rw [hcf.2] at h₁ h₂
        rw [hcf.1] at hc₁ hc₂
        exact hU cid₁ h₁ cid₂ h₂ cp₁ cp₂ hc₁ hc₂ hne
  | mkCp cpId taskId title descr now t hl hact hfc hfp =>
      rw [createCp_active s cpId taskId title descr now t hl hact]
      have hTaskNe : ∀ cid cp, cid ∈ s.pending →
          s.checkpoints.lookup cid = some cp → cp.taskId ≠ taskId := by
        intro cid cp hcid hc he
        obtain ⟨cp', hc', _, tb, ht, hb⟩ := hP cid hcid
        rw [hc] at hc'
        cases hc'
        rw [he, hl] at ht
        cases ht
        rw [hact] at hb
        cases hb
      have hIdNe : ∀ cid, cid ∈ s.pending → cid ≠ cpId := by
        intro cid hcid he
        obtain ⟨cp', hc', _⟩ := hP cid hcid
        rw [he, hfc] at hc'
        cases hc'
      constructor
      · intro cid hcid
        rcases List.mem_append.mp hcid with hold | hnew
        · obtain ⟨cp, hc, hst, tb, ht, hb⟩ := hP cid hold
          refine ⟨cp, ?_, hst, tb, ?_, hb⟩
          · simpa [lookup_updA_ne _ _ _ _ (hIdNe cid hold)] using hc
          · simpa [lookup_updA_ne _ _ _ _ (hTaskNe cid cp hold hc)] using ht
        · have he : cid = cpId := by simpa using hnew
          subst he
          refine ⟨⟨taskId, title, descr, .pending, none, none, none, none⟩,
            by simp [lookup_updA_self], rfl,
            appliedC t .blocked (some "checkpoint")
              (some ("checkpoint=" ++ cid ++ ": " ++ title)) now,
            by simp [lookup_updA_self], rfl⟩
      · intro cid₁ h₁ cid₂ h₂ cp₁ cp₂ hc₁ hc₂ hne
        rcases List.mem_append.mp h₁ with h₁o | h₁n <;>
          rcases List.mem_append.mp h₂ with h₂o | h₂n
        · rw [lookup_updA_ne _ _ _ _ (hIdNe cid₁ h₁o)] at hc₁
          rw [lookup_updA_ne _ _ _ _ (hIdNe cid₂ h₂o)] at hc₂
          exact hU cid₁ h₁o cid₂ h₂o cp₁ cp₂ hc₁ hc₂ hne
        · have he₂ : cid₂ = cpId := by simpa using h₂n
          subst he₂
          rw [lookup_updA_ne _ _ _ _ (hIdNe cid₁ h₁o)] at hc₁
          rw [lookup_updA_self] at hc₂
          cases hc₂
          exact hTaskNe cid₁ cp₁ h₁o hc₁
        · have he₁ : cid₁ = cpId := by simpa using h₁n
          subst he₁
          rw [lookup_updA_self] at hc₁
          cases hc₁
          rw [lookup_updA_ne _ _ _ _ (hIdNe cid₂ h₂o)] at hc₂
          exact fun he => hTaskNe cid₂ cp₂ h₂o hc₂ he.symm
        · have he₁ : cid₁ = cpId := by simpa using h₁n
          have he₂ : cid₂ = cpId := by simpa using h₂n
          rw [he₁, he₂] at hne
          exact absurd rfl hne
  | approveStep cpId now hp =>
      obtain ⟨cp, hc, hst, t, ht, hb⟩ := hP cpId hp
      rw [approveCp_resolves s cpId now cp t hc ht hb]
      constructor
      · intro cid hcid
        rw [show (⟨updA s.tasks cp.taskId
              (appliedC t .active (some "user")
                (some ("checkpoint " ++ cpId ++ " approved")) now),
            updA s.checkpoints cpId (cpApproved cp now),
            zrem s.pending cpId⟩ : CState).pending = zrem s.pending cpId from rfl]
          at hcid
        obtain ⟨hold, hne⟩ := (mem_zrem_iff _ _ _).mp hcid
        obtain ⟨cp', hc', hst', tb, ht', hb'⟩ := hP cid hold
        refine ⟨cp', ?_, hst', tb, ?_, hb'⟩
        · simpa [lookup_updA_ne _ _ _ _ hne] using hc'
        · have hTne : cp'.taskId ≠ cp.taskId :=
            hU cid hold cpId hp cp' cp hc' hc hne
          simpa [lookup_updA_ne _ _ _ _ hTne] using ht'
      · intro cid₁ h₁ cid₂ h₂ cp₁ cp₂ hc₁ hc₂ hne
        obtain ⟨h₁o, h₁ne⟩ := (mem_zrem_iff _ _ _).mp h₁
        obtain ⟨h₂o, h₂ne⟩ := (mem_zrem_iff _ _ _).mp h₂
        rw [lookup_updA_ne _ _ _ _ h₁ne] at hc₁
        rw [lookup_updA_ne _ _ _ _ h₂ne] at hc₂
        exact hU cid₁ h₁o cid₂ h₂o cp₁ cp₂ hc₁ hc₂ hne
  | rejectStep cpId reason now hp =>
      obtain ⟨cp, hc, hst, t, ht, hb⟩ := hP cpId hp
      rw [rejectCp_resolves s cpId reason now cp t hc ht hb]
      constructor
      · intro cid hcid
        obtain ⟨hold, hne⟩ := (mem_zrem_iff _ _ _).mp hcid
        obtain ⟨cp', hc', hst', tb, ht', hb'⟩ := hP cid hold
        refine ⟨cp', ?_, hst', tb, ?_, hb'⟩
        · simpa [lookup_updA_ne _ _ _ _ hne] using hc'
        · have hTne : cp'.taskId ≠ cp.taskId :=
            hU cid hold cpId hp cp' cp hc' hc hne
          simpa [lookup_updA_ne _ _ _ _ hTne] using ht'
      · intro cid₁ h₁ cid₂ h₂ cp₁ cp₂ hc₁ hc₂ hne
        obtain ⟨h₁o, h₁ne⟩ := (mem_zrem_iff _ _ _).mp h₁
        obtain ⟨h₂o, h₂ne⟩ := (mem_zrem_iff _ _ _).mp h₂
        rw [lookup_updA_ne _ _ _ _ h₁ne] at hc₁
        rw [lookup_updA_ne _ _ _ _ h₂ne] at hc₂
        exact hU cid₁ h₁o cid₂ h₂o cp₁ cp₂ hc₁ hc₂ hne

theorem reach_inv {s : CState} (h : Reach s) : Inv s := by
  induction h with
  | init =>
      constructor
      · intro cid hcid
        cases hcid
      · intro cid₁ h₁
        cases h₁
  | next _ st ih => exact step_preserves_inv ih st

/-! Claim theorems. -/

/-- C1.  The shipped transition table diverges from the one the claim
states: the code's table agrees with the spec table on every pair of
representable statuses, but the spec table demands active-to-testing
(and the other testing rows) while no member of the shipped TaskStatus
enum maps to testing at all — the services that drive testing
transitions reference a TaskStatus.TESTING member the model does not
declare.  For representable pairs, update_status succeeds exactly on
table rows, appends exactly one history event (timestamp, actor,
detail) on success, and refuses any other pair leaving the store
unchanged, as evaluated on a concrete store. -/
theorem c1_transition_table :
    (∀ a b : TaskStatus,
        b ∈ VALID_TRANSITIONS a ↔ toSpec b ∈ specTransitions (toSpec a))
    ∧ SpecStatus.testing ∈ specTransitions .active
    ∧ SpecStatus.testing ∈ specTransitions .review
    ∧ (∀ b : TaskStatus, toSpec b ≠ .testing)
    ∧ updateStatusC c1Store "t" .review (some "agent") (some "ok") 7 =
        ({ c1Store with tasks :=
            [("t", ⟨.review,
              [⟨7, "status_change:review", some "agent", some "ok"⟩], 7⟩)] },
         .ok ())
    ∧ updateStatusC c1Store "t" .done none none 7 =
        (c1Store, .error "invalid transition") := by
  exact ⟨by decide, by decide, by decide, by decide, rfl, rfl⟩

/-- C2, amended.  In every state reachable through the disciplined use
of the store and manager — checkpoints created on ACTIVE tasks with
fresh ids, resolutions invoked on checkpoints of the pending index,
and no BLOCKED task moved outside checkpoint resolution (the usage the
spec prescribes for these operations) — every PENDING-indexed
checkpoint references a BLOCKED task, and approve as well as reject of
a pending checkpoint returns the resolved checkpoint with the
referenced task ACTIVE at the end of the handler.  (Without the
create-on-ACTIVE discipline the invariant fails; see the
counterexample.) -/
theorem c2_disciplined_invariant :
    ∀ s, Reach s → PendingInv s ∧
      (∀ cid ∈ s.pending, ∀ now reason, ∃ cp,
        s.checkpoints.lookup cid = some cp ∧
        (approveCp s cid now).2 = .ok (some (cpApproved cp now)) ∧
        ((approveCp s cid now).1.tasks.lookup cp.taskId).map CTask.status =
          some .active ∧
        (rejectCp s cid reason now).2 = .ok (some (cpRejected cp reason now)) ∧
        ((rejectCp s cid reason now).1.tasks.lookup cp.taskId).map CTask.status =
          some .active) := by
  intro s hr
  obtain ⟨hP, hU⟩ := reach_inv hr
  refine ⟨hP, ?_⟩
  intro cid hcid now reason
  obtain ⟨cp, hc, hst, t, ht, hb⟩ := hP cid hcid
  refine ⟨cp, hc, ?_, ?_, ?_, ?_⟩
  · rw [approveCp_resolves s cid now cp t hc ht hb]
  · rw [approveCp_resolves s cid now cp t hc ht hb]
    simp [lookup_updA_self, appliedC]
  · rw [rejectCp_resolves s cid reason now cp t hc ht hb]
  · rw [rejectCp_resolves s cid reason now cp t hc ht hb]
    simp [lookup_updA_self, appliedC]

/-- Witness for the amended invariant: a concrete four-step reachable
store (create, plan, activate, checkpoint) on which the theorem yields
the invariant and ACTIVE-after-resolution facts. -/
theorem c2_disciplined_invariant_witness :
    PendingInv c2WitState ∧
    ((approveCp c2WitState "c" 9).1.tasks.lookup "t").map CTask.status =
      some .active ∧
    ((rejectCp c2WitState "c" "no" 9).1.tasks.lookup "t").map CTask.status =
      some .active := by
  have hs1 : Step initState (createTask initState "t" 0) :=
    Step.newTask _ "t" 0 rfl
  have hs2 : Step (createTask initState "t" 0)
      (updateStatusC (createTask initState "t" 0) "t" .planned none none 1).1 :=
    Step.taskMove _ "t" .planned none none 1 _ rfl (by decide)
  have hs3 : Step (updateStatusC (createTask initState "t" 0) "t" .planned none none 1).1
      (updateStatusC (updateStatusC (createTask initState "t" 0)
        "t" .planned none none 1).1 "t" .active none none 2).1 :=
    Step.taskMove _ "t" .active none none 2 _ rfl (by decide)
  have hs4 : Step (updateStatusC (updateStatusC (createTask initState "t" 0)
        "t" .planned none none 1).1 "t" .active none none 2).1 c2WitState :=
    Step.mkCp _ "c" "t" "ti" "d" 3 _ rfl rfl rfl (by decide)
  have hr : Reach c2WitState :=
    Reach.next (Reach.next (Reach.next (Reach.next Reach.init hs1) hs2) hs3) hs4
  obtain ⟨hP, h2⟩ := c2_disciplined_invariant c2WitState hr
  obtain ⟨cp, hc, _, ha2, _, hr2⟩ := h2 "c" (by decide) 9 "no"
  have hcp : cp = ⟨"t", "ti", "d", .pending, none, none, none, none⟩ := by
    rw [show c2WitState.checkpoints.lookup "c" =
      some ⟨"t", "ti", "d", .pending, none, none, none, none⟩ from rfl] at hc
    exact (Option.some.inj hc).symm
  subst hcp
  exact ⟨hP, ha2, hr2⟩

/-- C2, counterexample.  CheckpointManager.create invoked on a task
that is not ACTIVE (exactly what _merge_and_cleanup does: the merged
sub-task is already DONE when its merge_conflict checkpoint is
created) persists and indexes the PENDING checkpoint first and only
then raises from the blocking transition, leaving a reachable store
in which a PENDING checkpoint of the pending index references a DONE
task — refuting the claimed invariant. -/
theorem c2_pending_done_counterexample :
    (createCp c2ceState "c" "t" "Merge conflict: demo" "d" 1).2.isOk = false
    ∧ (createCp c2ceState "c" "t" "Merge conflict: demo" "d" 1).1 =
        ⟨[("t", ⟨.done, [], 0⟩)],
         [("c", ⟨"t", "Merge conflict: demo", "d", .pending, none, none, none, none⟩)],
         ["c"]⟩
    ∧ ¬ PendingInv (createCp c2ceState "c" "t" "Merge conflict: demo" "d" 1).1 := by
  refine ⟨rfl, rfl, ?_⟩
  intro h
  obtain ⟨cp, hcp, _, t, ht, hb⟩ := h "c" (by decide)
  have hcpv : (createCp c2ceState "c" "t" "Merge conflict: demo" "d" 1).1.checkpoints.lookup "c" =
      some ⟨"t", "Merge conflict: demo", "d", .pending, none, none, none, none⟩ := by
    rfl
  rw [hcpv] at hcp
  cases hcp
  have htv : (createCp c2ceState "c" "t" "Merge conflict: demo" "d" 1).1.tasks.lookup "t" =
      some ⟨.done, [], 0⟩ := by rfl
  rw [htv] at ht
  cases ht
  exact absurd hb (by decide)

theorem classify_spec (l : List SpecStatus) :
    classifyChildren l =
      (l.all isDoneOrRejected, l.any isRejectedB, l.any isRunningStatus) := by
  induction l with
  | nil => rfl
  | cons st rest ih =>
      cases st <;>
        simp [classifyChildren, ih, isDoneOrRejected, isRejectedB, isRunningStatus]

theorem review_mem_spec (st : SpecStatus) :
    (SpecStatus.review ∈ specTransitions st) ↔ st = .active := by
  cases st <;> decide

/-- C3, amended.  For a stored parent: the handler returns null when
the parent is BLOCKED; otherwise it returns all_done exactly when
every (stored) child is DONE or REJECTED; and it returns failed —
transitioning the parent ACTIVE to REVIEW to REJECTED — exactly when
not all children are in those terminal statuses, at least one child is
REJECTED, no child is running, and the parent is ACTIVE (the original
claim's condition, children all DONE for all_done and merely
no-running-plus-one-rejected for failed, is refuted by the
counterexample: a REJECTED child never clears the all_done flag). -/
theorem c3_signals_amended :
    ∀ (parallel : Bool) (dA : SState → String → SState × Nat)
      (dN : SState → String → SState × Bool)
      (s : SState) (pid : String) (now : Nat) (p : STask),
      s.tasks.lookup pid = some p →
      ((p.status = .blocked →
          onSubtaskComplete parallel dA dN s pid now = (s, .ok none)) ∧
       (p.status ≠ .blocked →
         (((onSubtaskComplete parallel dA dN s pid now).2 = .ok (some "all_done")) ↔
            (childStatuses s p).all isDoneOrRejected = true) ∧
         (((onSubtaskComplete parallel dA dN s pid now).2 = .ok (some "failed")) ↔
            ((childStatuses s p).all isDoneOrRejected = false ∧
             (childStatuses s p).any isRejectedB = true ∧
             (childStatuses s p).any isRunningStatus = false ∧
             p.status = .active)) ∧
         (((childStatuses s p).all isDoneOrRejected = false ∧
           (childStatuses s p).any isRejectedB = true ∧
           (childStatuses s p).any isRunningStatus = false ∧
           p.status = .active) →
             ((onSubtaskComplete parallel dA dN s pid now).1.tasks.lookup pid).map
               STask.status = some .rejected))) := by
  intro parallel dA dN s pid now p hl
  have hcl := classify_spec (childStatuses s p)
  refine ⟨fun hb => by simp [onSubtaskComplete, hl, hb], fun hnb => ?_⟩
  cases ha : (childStatuses s p).all isDoneOrRejected with
  | true =>
      refine ⟨by simp [onSubtaskComplete, hl, hnb, hcl, ha], ?_, ?_⟩
      · constructor
        · intro h
          simp [onSubtaskComplete, hl, hnb, hcl, ha] at h
        · rintro ⟨hfa, _⟩
          exact absurd hfa (by decide)
      · rintro ⟨hfa, _⟩
        exact absurd hfa (by decide)
  | false =>
      cases hf : (childStatuses s p).any isRejectedB with
      | false =>
          refine ⟨?_, ?_, ?_⟩
          · constructor
            · intro h
              by_cases hpar : parallel = true <;>
                simp [onSubtaskComplete, hl, hnb, hcl, ha, hf, hpar] at h
            · intro h
              exact absurd h (by decide)
          · constructor
            · intro h
              by_cases hpar : parallel = true <;>
                simp [onSubtaskComplete, hl, hnb, hcl, ha, hf, hpar] at h
            · rintro ⟨_, hff, _⟩
              exact absurd hff (by decide)
          · rintro ⟨_, hff, _⟩
            exact absurd hff (by decide)
      | true =>
          cases hrun : (childStatuses s p).any isRunningStatus with
          | true =>
              refine ⟨?_, ?_, ?_⟩
              · constructor
                · intro h
                  simp [onSubtaskComplete, hl, hnb, hcl, ha, hf, hrun] at h
                · intro h
                  exact absurd h (by decide)
              · constructor
                · intro h
                  simp [onSubtaskComplete, hl, hnb, hcl, ha, hf, hrun] at h
                · rintro ⟨_, _, hrr, _⟩
                  exact absurd hrr (by decide)
              · rintro ⟨_, _, hrr, _⟩
                exact absurd hrr (by decide)
          | false =>
              by_cases hact : p.status = .active
              · have h1 := updateStatusS_some s pid .review (some "orchestrator")
                  (some "sub-task failed") now p hl
                rw [if_pos (by rw [hact]; decide)] at h1
                have hl2 : ({ s with tasks := updA s.tasks pid (appliedS p .review (some "orchestrator") (some "sub-task failed") now) } : SState).tasks.lookup pid =
                    some (appliedS p .review (some "orchestrator")
                      (some "sub-task failed") now) :=
                  lookup_updA_self _ _ _
                have h2 := updateStatusS_some _ pid .rejected (some "orchestrator")
                  (some "sub-task failure") now _ hl2
                have hmem2 : SpecStatus.rejected ∈ specTransitions
                    (appliedS p SpecStatus.review (some "orchestrator")
                      (some "sub-task failed") now).status := by
                  simp [appliedS, specTransitions]
                rw [if_pos hmem2] at h2
                refine ⟨?_, ?_, ?_⟩
                · constructor
                  · intro h
                    simp [onSubtaskComplete, hl, hnb, hcl, ha, hf, hrun, h1, h2] at h
                  · intro h
                    exact absurd h (by decide)
                · constructor
                  · intro _
                    exact ⟨rfl, rfl, rfl, hact⟩
                  · intro _
                    simp [onSubtaskComplete, hl, hnb, hcl, ha, hf, hrun, h1, h2]
                · intro _
                  simp only [onSubtaskComplete, hl, hnb, hcl, ha, hf, hrun, h1, h2]
                  simp [lookup_updA_self, appliedS]
              · have hmem : SpecStatus.review ∉ specTransitions p.status := by
                  rw [review_mem_spec]
                  exact hact
                have h1 := updateStatusS_some s pid .review (some "orchestrator")
                  (some "sub-task failed") now p hl
                rw [if_neg hmem] at h1
                refine ⟨?_, ?_, ?_⟩
                · constructor
                  · intro h
                    simp [onSubtaskComplete, hl, hnb, hcl, ha, hf, hrun, h1] at h
                  · intro h
                    exact absurd h (by decide)
                · constructor
                  · intro h
                    simp [onSubtaskComplete, hl, hnb, hcl, ha, hf, hrun, h1] at h
                  · rintro ⟨_, _, _, haa⟩
                    exact absurd haa hact
                · rintro ⟨_, _, _, haa⟩
                  exact absurd haa hact

/-- Witness for the amended C3 statement: a parent with one PLANNED
and one REJECTED child, where the handler reports failed and rejects
the parent. -/
theorem c3_signals_amended_witness :
    (onSubtaskComplete false dispAllNop dispNextNop c3wState "p" 1).2 =
      .ok (some "failed") ∧
    ((onSubtaskComplete false dispAllNop dispNextNop c3wState "p" 1).1.tasks.lookup
      "p").map STask.status = some .rejected := by
  have h := c3_signals_amended false dispAllNop dispNextNop c3wState "p" 1
    c3wParent rfl
  have h2 := (h.2 (by decide)).2.1
  have h3 := (h.2 (by decide)).2.2
  refine ⟨h2.mpr ⟨by decide, by decide, by decide, rfl⟩,
    h3 ⟨by decide, by decide, by decide, rfl⟩⟩

/-- C3, counterexample.  With an ACTIVE parent whose single child is
REJECTED (no child running, one child rejected — the claim's condition
for the failed signal), on_subtask_complete returns all_done and does
not transition the parent: a REJECTED child never clears the all_done
flag in the classification loop. -/
theorem c3_rejected_child_counterexample :
    onSubtaskComplete false dispAllNop dispNextNop c3State "p" 1 =
      (c3State, .ok (some "all_done"))
    ∧ (c3State.tasks.lookup "c").map STask.status = some .rejected
    ∧ childStatuses c3State c3Parent = [.rejected]
    ∧ (childStatuses c3State c3Parent).any isRunningStatus = false := by
  exact ⟨rfl, rfl, rfl, rfl⟩

/-- C4.  The HTTP approve and reject handlers call the event-bus hooks
with the checkpoint's task_id only: the source_role parameter is never
passed and defaults to None, so the hook's routing never sees the
checkpoint's source_role (here qa) — and the shipped manager's create
cannot even record one (its result always carries source_role None). -/
theorem c4_hook_gets_no_source_role :
    (approveRoute c4State "c" 1).2 =
      .ok ⟨"t", "Ti", "D", .approved, some 1, some "user", none, some "qa"⟩
    ∧ (approveRoute c4State "c" 1).1.trace = [.hookApproved "t" none]
    ∧ (∀ r : String,
        Act.hookApproved "t" (some r) ∉ (approveRoute c4State "c" 1).1.trace)
    ∧ (rejectRoute c4State "c" "nope" 1).1.trace = [.hookRejected "t" none]
    ∧ (createCp ⟨[("t2", ⟨.active, [], 0⟩)], [], []⟩ "c2" "t2" "Ti" "D" 1).2 =
        .ok ⟨"t2", "Ti", "D", .pending, none, none, none, none⟩ := by
  refine ⟨rfl, rfl, ?_, rfl, rfl⟩
  intro r hr
  rw [show (approveRoute c4State "c" 1).1.trace = [.hookApproved "t" none] from rfl] at hr
  simp at hr

/-- C9.  Resolving an existing checkpoint whose task is no longer
BLOCKED (it is ACTIVE, the state right after a first approve):
approve re-marks the checkpoint APPROVED and removes it from the
pending index, then raises from the ACTIVE-to-ACTIVE transition,
leaving the task untouched; reject by contrast returns normally with
the checkpoint re-marked REJECTED and never touches the task's
status (the guard in reject skips the transition when the task is not
BLOCKED). -/
theorem c9_double_resolution :
    ∀ (s : CState) (cpId : String) (cp : CCheckpoint) (t : CTask) (now : Nat)
      (reason : String),
      s.checkpoints.lookup cpId = some cp →
      s.tasks.lookup cp.taskId = some t →
      t.status = .active →
      ((approveCp s cpId now).2 = .error "invalid transition" ∧
       (approveCp s cpId now).1.checkpoints.lookup cpId = some (cpApproved cp now) ∧
       cpId ∉ (approveCp s cpId now).1.pending ∧
       (approveCp s cpId now).1.tasks.lookup cp.taskId = some t) ∧
      ((rejectCp s cpId reason now).2 = .ok (some (cpRejected cp reason now)) ∧
       (rejectCp s cpId reason now).1.tasks.lookup cp.taskId = some t) := by
  intro s cpId cp t now reason hc ht hact
  have hmem : TaskStatus.active ∉ VALID_TRANSITIONS t.status := by
    rw [hact]; decide
  have h1 := updateStatusC_some
    ({ s with checkpoints := updA s.checkpoints cpId { cp with status := .approved, resolvedAt := some now, resolvedBy := some "user" }, pending := zrem s.pending cpId })
    cp.taskId .active (some "user") (some ("checkpoint " ++ cpId ++ " approved"))
    now t ht
  rw [if_neg hmem] at h1
  constructor
  · refine ⟨?_, ?_, ?_, ?_⟩ <;>
      simp [approveCp, hc, h1, lookup_updA_self, not_mem_zrem_self, cpApproved, ht]
  · have hnb : ¬ t.status = TaskStatus.blocked := by rw [hact]; decide
    refine ⟨?_, ?_⟩ <;>
      simp [rejectCp, hc, ht, hnb, cpRejected]

/-- Witness for the double-resolution behaviour on a concrete store:
the second approve raises while the second reject returns normally. -/
theorem c9_double_resolution_witness :
    (approveCp c9State "c" 5).2 = .error "invalid transition" ∧
    (rejectCp c9State "c" "r" 5).2 = .ok (some (cpRejected c9cp "r" 5)) := by
  have h := c9_double_resolution c9State "c" c9cp ⟨.active, [], 0⟩ 5 "r" rfl rfl rfl
  exact ⟨h.1.1, h.2.1⟩

/-- C10.  A TASK_COMPLETE whose agent_id has no stored AgentRecord is
not discarded: the role falls back to DEV and the handler runs the
dev-completion path (followed by the agent cleanup, skipped on
error), for any configuration and any collaborators. -/
theorem c10_unknown_agent_dev_fallback :
    ∀ (ctx : Option Settings) (pmH archH revH qaH : SHandler)
      (spawnRevH spawnQAH contH : STaskCont) (m : Msg) (now : Nat) (s : SState)
      (tid aid : String),
      m.taskId = some tid → m.agentId = some aid →
      tid ≠ "" → aid ≠ "" →
      s.agents.lookup aid = none →
      onTaskComplete ctx pmH archH revH qaH spawnRevH spawnQAH contH m now s =
        (match onDevComplete ctx spawnRevH spawnQAH contH m now s with
         | (s1, .ok _) => (cleanupAgent s1 aid, .ok ())
         | (s1, .error e) => (s1, .error e)) := by
  intro ctx pmH archH revH qaH spawnRevH spawnQAH contH m now s tid aid
    hmt hma htne hane hag
  simp [onTaskComplete, hmt, hma, htne, hane, hag]

/-- Witness: on a concrete store with no agent record, the router
equals the dev-completion path composed with cleanup. -/
theorem c10_unknown_agent_dev_fallback_witness :
    onTaskComplete none hNop hNop hNop hNop cNop cNop cNop c10Msg 1 c10State =
      (match onDevComplete none cNop cNop cNop c10Msg 1 c10State with
       | (s1, .ok _) => (cleanupAgent s1 "a", .ok ())
       | (s1, .error e) => (s1, .error e)) :=
  c10_unknown_agent_dev_fallback none hNop hNop hNop hNop cNop cNop cNop
    c10Msg 1 c10State "t" "a" rfl rfl (by decide) (by decide) rfl

theorem updateAgentStatus_tasks (s : SState) (m : Msg) :
    (updateAgentStatus s m).tasks = s.tasks := by
  unfold updateAgentStatus
  split
  · rfl
  · split
    · rfl
    · split
      · rfl
      · split <;> rfl

theorem lookup_updA_map_role (l : List (String × AgentRec)) (k j : String)
    (a a' : AgentRec) (hl : l.lookup k = some a) (hrole : a'.role = a.role) :
    ((updA l k a').lookup j).map AgentRec.role = (l.lookup j).map AgentRec.role := by
  by_cases hj : j = k
  · subst hj
    rw [lookup_updA_self, hl]
    simp [hrole]
  · rw [lookup_updA_ne _ _ _ _ hj]

theorem updateAgentStatus_role (s : SState) (m : Msg) (j : String) :
    ((updateAgentStatus s m).agents.lookup j).map AgentRec.role =
      (s.agents.lookup j).map AgentRec.role := by
  unfold updateAgentStatus
  split
  · rfl
  · split
    · rfl
    · rename_i aid a hla
      split
      · exact lookup_updA_map_role _ _ _ a _ hla rfl
      · split
        · exact lookup_updA_map_role _ _ _ a _ hla rfl
        · rfl

theorem onDevComplete_done (ctx : Option Settings)
    (spawnRevH spawnQAH contH : STaskCont) (m : Msg) (now : Nat) (s : SState)
    (tid : String) (t : STask)
    (hmt : m.taskId = some tid)
    (hl : s.tasks.lookup tid = some t) (hst : t.status = .done) :
    onDevComplete ctx spawnRevH spawnQAH contH m now s =
      (emit (updateTaskS s tid { t with agentOutputs := updA t.agentOutputs "dev" (msgOutput m) } now)
         (.gitCommit (devCommitTarget ctx tid { t with agentOutputs := updA t.agentOutputs "dev" (msgOutput m) })),
       .error "invalid transition") := by
  have hl2 : (emit (updateTaskS s tid { t with agentOutputs := updA t.agentOutputs "dev" (msgOutput m) } now)
      (.gitCommit (devCommitTarget ctx tid { t with agentOutputs := updA t.agentOutputs "dev" (msgOutput m) }))).tasks.lookup tid =
      some { t with agentOutputs := updA t.agentOutputs "dev" (msgOutput m), updatedAt := now } := by
    simp [emit, updateTaskS, lookup_updA_self]
  have hupd : ∀ (new : SpecStatus) (evBy evDet : Option String),
      updateStatusS (emit (updateTaskS s tid { t with agentOutputs := updA t.agentOutputs "dev" (msgOutput m) } now)
        (.gitCommit (devCommitTarget ctx tid { t with agentOutputs := updA t.agentOutputs "dev" (msgOutput m) }))) tid new evBy evDet now =
      (emit (updateTaskS s tid { t with agentOutputs := updA t.agentOutputs "dev" (msgOutput m) } now)
        (.gitCommit (devCommitTarget ctx tid { t with agentOutputs := updA t.agentOutputs "dev" (msgOutput m) })),
       .error "invalid transition") := by
    intro new evBy evDet
    rw [updateStatusS_some _ _ _ _ _ _ _ hl2,
      if_neg (by rw [show ({ t with agentOutputs := updA t.agentOutputs "dev" (msgOutput m), updatedAt := now } : STask).status = t.status from rfl, hst]; simp [specTransitions])]
  unfold onDevComplete
  rw [hmt]
  simp only [hl]
  split_ifs <;> simp [hupd]

/-- C6, amended.  A duplicated TASK_COMPLETE routed to the dev path for
a task that is already DONE leaves the task's status and history
unchanged — the transition attempt is refused by the store's own
validation, not by a status check in the handler, and the swallowed
error leaves the already-performed writes in place: agent_outputs has
been re-written (and updated_at bumped) before the refusal, refuting
leaves-the-stored-state-unchanged as literally claimed. -/
theorem c6_duplicate_amended :
    ∀ (ctx : Option Settings) (pmH archH revH qaH failedH : SHandler)
      (spawnRevH spawnQAH contH : STaskCont)
      (m : Msg) (now : Nat) (s : SState) (tid aid : String) (t : STask),
      m.type = .taskComplete → m.taskId = some tid → m.agentId = some aid →
      tid ≠ "" → aid ≠ "" →
      (s.agents.lookup aid).map AgentRec.role = some .dev ∨ s.agents.lookup aid = none →
      s.tasks.lookup tid = some t → t.status = .done →
      (handleAgentMessage ctx pmH archH revH qaH spawnRevH spawnQAH contH
          failedH m now s).1.tasks.lookup tid =
        some { t with agentOutputs := updA t.agentOutputs "dev" (msgOutput m),
                      updatedAt := now } := by
  intro ctx pmH archH revH qaH failedH spawnRevH spawnQAH contH m now s tid aid t
    hty hmt hma htne hane hrole hlt hst
  have htasks : (updateAgentStatus (emit s .logAppend) m).tasks = s.tasks := by
    rw [updateAgentStatus_tasks]
    rfl
  have hlt1 : (updateAgentStatus (emit s .logAppend) m).tasks.lookup tid = some t := by
    rw [htasks]
    exact hlt
  have hdev := onDevComplete_done ctx spawnRevH spawnQAH contH m now
    (updateAgentStatus (emit s .logAppend) m) tid t hmt hlt1 hst
  have hrole1 : ((updateAgentStatus (emit s .logAppend) m).agents.lookup aid).map
      AgentRec.role = (s.agents.lookup aid).map AgentRec.role := by
    rw [updateAgentStatus_role]
    rfl
  have hroledev : (match (updateAgentStatus (emit s .logAppend) m).agents.lookup aid with
      | some a => a.role
      | none => AgentRole.dev) = AgentRole.dev := by
    cases ho : (updateAgentStatus (emit s .logAppend) m).agents.lookup aid with
    | none => rfl
    | some a =>
        rw [ho] at hrole1
        cases hrole
        case inl hr =>
            rw [hr] at hrole1
            simpa using hrole1
        case inr hr =>
            rw [hr] at hrole1
            simp at hrole1
  unfold handleAgentMessage
  rw [hty]
  simp only [onTaskComplete, hmt, hma]
  rw [if_neg (by simp [htne, hane])]
  rw [hroledev]
  simp only [hdev]
  simp [emit, updateTaskS, lookup_updA_self]

/-- Witness: the amended statement evaluated on the concrete duplicate
message and DONE task. -/
theorem c6_duplicate_amended_witness :
    (handleAgentMessage none hNop hNop hNop hNop cNop cNop cNop hNop
        c6Msg 1 c6State).1.tasks.lookup "t" =
      some { c6Task with agentOutputs := updA c6Task.agentOutputs "dev" (msgOutput c6Msg),
                         updatedAt := 1 } := by
  exact c6_duplicate_amended none hNop hNop hNop hNop hNop cNop cNop cNop
    c6Msg 1 c6State "t" "a" c6Task rfl rfl rfl (by decide) (by decide)
    (Or.inr rfl) rfl rfl

theorem updateStatusS_frame (s : SState) (id : String) (new : SpecStatus)
    (evBy evDet : Option String) (now : Nat) :
    (updateStatusS s id new evBy evDet now).1.checkpoints = s.checkpoints ∧
    (updateStatusS s id new evBy evDet now).1.pending = s.pending ∧
    (updateStatusS s id new evBy evDet now).1.trace = s.trace := by
  unfold updateStatusS
  split
  · exact ⟨rfl, rfl, rfl⟩
  · split <;> simp

theorem createCpS_writes (s : SState) (cpId taskId title descr : String)
    (srcRole : Option String) (now : Nat) :
    (createCpS s cpId taskId title descr srcRole now).1.checkpoints.lookup cpId =
      some ⟨taskId, title, descr, .pending, none, none, none, srcRole⟩ ∧
    cpId ∈ (createCpS s cpId taskId title descr srcRole now).1.pending ∧
    (createCpS s cpId taskId title descr srcRole now).1.trace = s.trace := by
  have hf := updateStatusS_frame
    ({ s with checkpoints := updA s.checkpoints cpId ⟨taskId, title, descr, .pending, none, none, none, srcRole⟩, pending := s.pending ++ [cpId] })
    taskId .blocked (some "checkpoint")
    (some ("checkpoint=" ++ cpId ++ ": " ++ title)) now
  unfold createCpS
  rcases hres : updateStatusS
    ({ s with checkpoints := updA s.checkpoints cpId ⟨taskId, title, descr, .pending, none, none, none, srcRole⟩, pending := s.pending ++ [cpId] })
    taskId .blocked (some "checkpoint")
    (some ("checkpoint=" ++ cpId ++ ": " ++ title)) now with ⟨s2, r⟩
  rw [hres] at hf
  cases r <;> simp_all [lookup_updA_self]

/-- C7.  A conflicted merge is auto-resolved — accept the incoming
version of every conflicted file, commit the resolution, remove the
worktree and delete the branch, reporting success — exactly when every
conflicted file matches an auto-resolve pattern; otherwise the merge
is aborted and a merge_conflict checkpoint on the task is persisted
and indexed.  The pattern list accepts the six artifact paths of the
claim and rejects src/main.py. -/
theorem c7_auto_resolve :
    canAutoResolve [".coverage", "htmlcov/x", "__pycache__/m.pyc",
      "dist/out.tar", ".DS_Store", "x.log"] = true
    ∧ autoResolvePatterns.any (fun pat => fnmatchB "src/main.py" pat) = false
    ∧ (∀ (ctx : Option Settings) (cpId : String) (s : SState) (taskId : String)
        (t : STask) (branch : String) (mr : MergeRes) (now : Nat),
        mr.success = false → mr.conflictFiles ≠ [] →
        ((canAutoResolve mr.conflictFiles = true →
           mergeAndCleanup ctx cpId s taskId t branch mr now =
             (emit (emit (emit (emit (emit s (.mergeBranch branch))
               (.resolveTheirs mr.conflictFiles)) .commitMergeRes)
               (.removeWorktree (ctxWorktreeBase ctx ++ "/task-" ++ taskId)))
               (.deleteBranch branch),
              .ok true)) ∧
         (canAutoResolve mr.conflictFiles = false →
           (mergeAndCleanup ctx cpId s taskId t branch mr now).1.trace =
             s.trace ++ [.mergeBranch branch, .abortMerge] ∧
           (mergeAndCleanup ctx cpId s taskId t branch mr now).1.checkpoints.lookup cpId =
             some ⟨taskId, "Merge conflict: " ++ t.title,
               mergeCpDesc t branch mr.conflictFiles, .pending, none, none, none,
               some "merge_conflict"⟩ ∧
           cpId ∈ (mergeAndCleanup ctx cpId s taskId t branch mr now).1.pending))) := by
  refine ⟨by decide, by decide, ?_⟩
  intro ctx cpId s taskId t branch mr now hsucc hne
  constructor
  · intro hcan
    simp [mergeAndCleanup, hsucc, hcan, hne]
  · intro hcan
    have hw := createCpS_writes (emit (emit s (.mergeBranch branch)) .abortMerge)
      cpId taskId ("Merge conflict: " ++ t.title)
      (mergeCpDesc t branch mr.conflictFiles) (some "merge_conflict") now
    rcases hres : createCpS (emit (emit s (.mergeBranch branch)) .abortMerge)
      cpId taskId ("Merge conflict: " ++ t.title)
      (mergeCpDesc t branch mr.conflictFiles) (some "merge_conflict") now with ⟨s2, r⟩
    rw [hres] at hw
    cases r <;>
      simp_all [mergeAndCleanup, hsucc, hcan, hne, emit]

/-- Witness: a merge conflicting only on .coverage is auto-resolved;
one conflicting on src/main.py is aborted. -/
theorem c7_auto_resolve_witness :
    mergeAndCleanup none "c" mergeDemoState "t" mergeDemoTask "b"
        ⟨false, none, [".coverage"]⟩ 1 =
      (emit (emit (emit (emit (emit mergeDemoState (.mergeBranch "b"))
        (.resolveTheirs [".coverage"])) .commitMergeRes)
        (.removeWorktree (ctxWorktreeBase none ++ "/task-" ++ "t")))
        (.deleteBranch "b"),
       .ok true) ∧
    Act.abortMerge ∈ (mergeAndCleanup none "c" mergeDemoState "t" mergeDemoTask "b"
        ⟨false, none, ["src/main.py"]⟩ 1).1.trace := by
  have h1 := (c7_auto_resolve.2.2 none "c" mergeDemoState "t" mergeDemoTask "b"
    ⟨false, none, [".coverage"]⟩ 1 rfl (by decide)).1 (by decide)
  have h2 := (c7_auto_resolve.2.2 none "c" mergeDemoState "t" mergeDemoTask "b"
    ⟨false, none, ["src/main.py"]⟩ 1 rfl (by decide)).2 (by decide)
  refine ⟨h1, ?_⟩
  rw [h2.1]
  simp

theorem injectArchCtx_props (archCtx : STask → Option String) (s : SState)
    (taskId : String) (t : STask) (now : Nat)
    (hl : s.tasks.lookup taskId = some t) :
    ∃ tc, (injectArchCtx archCtx s taskId t now).1.tasks.lookup taskId = some tc ∧
      tc.agentOutputs = t.agentOutputs ∧ tc.history = t.history ∧
      tc.status = t.status ∧
      (injectArchCtx archCtx s taskId t now).1.trace = s.trace ∧
      (injectArchCtx archCtx s taskId t now).1.agents = s.agents := by
  unfold injectArchCtx
  split
  case h_2 => exact ⟨t, hl, rfl, rfl, rfl, rfl, rfl⟩
  case h_1 pid =>
    split
    case h_2 => exact ⟨t, hl, rfl, rfl, rfl, rfl, rfl⟩
    case h_1 parent hpar =>
      split
      case h_2 => exact ⟨t, hl, rfl, rfl, rfl, rfl, rfl⟩
      case h_1 ctx hctx =>
        split
        · refine ⟨{ t with descr := t.descr ++ ctx, updatedAt := now }, ?_, rfl, rfl, rfl, rfl, rfl⟩
          simp [updateTaskS, lookup_updA_self]
        · exact ⟨t, hl, rfl, rfl, rfl, rfl, rfl⟩

theorem updateStatusS_error_state (s : SState) (id : String) (new : SpecStatus)
    (evBy evDet : Option String) (now : Nat) (s' : SState) (e : String)
    (h : updateStatusS s id new evBy evDet now = (s', .error e)) : s' = s := by
  unfold updateStatusS at h
  split at h
  · injection h with h1 _
    exact h1.symm
  · split at h
    · injection h with _ h2
      cases h2
    · injection h with h1 _
      exact h1.symm

theorem updateStatusS_ok_state (s : SState) (id : String) (new : SpecStatus)
    (evBy evDet : Option String) (now : Nat) (t : STask) (s' : SState) (u : Unit)
    (h : updateStatusS s id new evBy evDet now = (s', .ok u))
    (hl : s.tasks.lookup id = some t) :
    s' = { s with tasks := updA s.tasks id (appliedS t new evBy evDet now) } := by
  rw [updateStatusS_some s id new evBy evDet now t hl] at h
  split at h
  · injection h with h1 _
    exact h1.symm
  · injection h with _ h2
    cases h2

theorem dispatchSingleS_props (archCtx : STask → Option String)
    (spawnOut : Option String) (s : SState) (taskId : String) (t : STask)
    (now : Nat) (hl : s.tasks.lookup taskId = some t) :
    ∃ t' rest,
      (dispatchSingleS archCtx spawnOut s taskId t now).1.tasks.lookup taskId = some t' ∧
      t'.agentOutputs = t.agentOutputs ∧
      t'.history = t.history ++ rest ∧
      Act.dispatchSingleCall taskId ∈ (dispatchSingleS archCtx spawnOut s taskId t now).1.trace := by
  have hl0 : (emit s (.dispatchSingleCall taskId)).tasks.lookup taskId = some t := hl
  obtain ⟨tc, htc, hout, hhist, hstat, htr, hag⟩ :=
    injectArchCtx_props archCtx (emit s (.dispatchSingleCall taskId)) taskId t now hl0
  have hmemtr : Act.dispatchSingleCall taskId ∈
      (injectArchCtx archCtx (emit s (.dispatchSingleCall taskId)) taskId t now).1.trace := by
    rw [htr]
    simp [emit]
  cases spawnOut with
  | none =>
      simp only [dispatchSingleS]
      exact ⟨tc, [], htc, hout, by simp [hhist], hmemtr⟩
  | some aid =>
      simp only [dispatchSingleS]
      split
      · rename_i s4 e heq
        have hs4 := updateStatusS_error_state _ _ _ _ _ _ _ _ heq
        subst hs4
        exact ⟨tc, [], htc, hout, by simp [hhist], List.mem_append_left _ hmemtr⟩
      · rename_i s4 u heq
        have hs4 := updateStatusS_ok_state _ _ _ _ _ _ tc _ _ heq htc
        subst hs4
        simp only [lookup_updA_self]
        refine ⟨{ appliedS tc .active (some "orchestrator") (some ("retry agent=" ++ aid)) now with assignedTo := some aid, updatedAt := now },
          [statusEventS .active (some "orchestrator") (some ("retry agent=" ++ aid)) now],
          ?_, by simp [appliedS, hout], by simp [appliedS, hhist], ?_⟩
        · simp [updateTaskS, lookup_updA_self]
        · exact List.mem_append_left _ hmemtr

/-- C5.  On a reviewer reject for a task in REVIEW whose retry counter
(read as a decimal string, absent meaning zero) parses to k: when k is
below the configured maximum, the handler stores the review summary in
reviewer_feedback, writes back the incremented counter as a decimal
string, appends the REVIEW-to-REJECTED and REJECTED-to-PLANNED history
events, and re-dispatches a DEV agent via dispatch_single; otherwise it
persists and indexes a pending checkpoint with source_role reviewer on
the task. -/
theorem c5_reviewer_reject :
    ∀ (ctx : Option Settings) (archCtx : STask → Option String)
      (spawnOut : Option String) (cpId : String) (s : SState)
      (taskId : String) (t : STask) (review : ReviewResult) (now : Nat) (k : Int),
      s.tasks.lookup taskId = some t →
      t.status = .review →
      pyIntOfString ((t.agentOutputs.lookup "reviewer_retry_count").getD "0") = .ok k →
      ((k < (ctxReviewerMaxRetries ctx : Int) →
          ∃ t' rest,
            (reviewerReject ctx archCtx spawnOut cpId s taskId t review now).1.tasks.lookup taskId = some t' ∧
            t'.agentOutputs.lookup "reviewer_feedback" = some review.summary ∧
            t'.agentOutputs.lookup "reviewer_retry_count" = some (toString (k + 1)) ∧
            t'.history = t.history ++
              [statusEventS .rejected (some "reviewer")
                 (some ("rejected (retry " ++ toString (k + 1) ++ "/" ++
                   toString (ctxReviewerMaxRetries ctx) ++ "): " ++ review.summary.take 200)) now,
               statusEventS .planned (some "orchestrator") (some "queued for retry") now] ++ rest ∧
            Act.dispatchSingleCall taskId ∈
              (reviewerReject ctx archCtx spawnOut cpId s taskId t review now).1.trace) ∧
       (¬ k < (ctxReviewerMaxRetries ctx : Int) →
          (reviewerReject ctx archCtx spawnOut cpId s taskId t review now).1.checkpoints.lookup cpId =
            some ⟨taskId, "Review failed: " ++ t.title,
              reviewerCpDesc t (ctxReviewerMaxRetries ctx) review, .pending,
              none, none, none, some "reviewer"⟩ ∧
          cpId ∈ (reviewerReject ctx archCtx spawnOut cpId s taskId t review now).1.pending)) := by
  intro ctx archCtx spawnOut cpId s taskId t review now k hl hst hparse
  constructor
  · intro hk
    have h1 := updateStatusS_some
      ({ s with tasks := updA s.tasks taskId { t with agentOutputs := updA (updA t.agentOutputs "reviewer_feedback" review.summary) "reviewer_retry_count" (toString (k + 1)), updatedAt := now } } : SState)
      taskId .rejected (some "reviewer")
      (some ("rejected (retry " ++ toString (k + 1) ++ "/" ++
        toString (ctxReviewerMaxRetries ctx) ++ "): " ++ review.summary.take 200)) now
      { t with agentOutputs := updA (updA t.agentOutputs "reviewer_feedback" review.summary) "reviewer_retry_count" (toString (k + 1)), updatedAt := now }
      (lookup_updA_self _ _ _)
    rw [if_pos (by rw [show ({ t with agentOutputs := updA (updA t.agentOutputs "reviewer_feedback" review.summary) "reviewer_retry_count" (toString (k + 1)), updatedAt := now } : STask).status = t.status from rfl, hst]; decide)] at h1
    have h2 := updateStatusS_some
      (⟨updA (updA s.tasks taskId { t with agentOutputs := updA (updA t.agentOutputs "reviewer_feedback" review.summary) "reviewer_retry_count" (toString (k + 1)), updatedAt := now }) taskId (appliedS { t with agentOutputs := updA (updA t.agentOutputs "reviewer_feedback" review.summary) "reviewer_retry_count" (toString (k + 1)), updatedAt := now } .rejected (some "reviewer") (some ("rejected (retry " ++ toString (k + 1) ++ "/" ++ toString (ctxReviewerMaxRetries ctx) ++ "): " ++ review.summary.take 200)) now), s.checkpoints, s.pending, s.agents, s.trace⟩ : SState)
      taskId .planned (some "orchestrator") (some "queued for retry") now
      (appliedS { t with agentOutputs := updA (updA t.agentOutputs "reviewer_feedback" review.summary) "reviewer_retry_count" (toString (k + 1)), updatedAt := now } .rejected (some "reviewer") (some ("rejected (retry " ++ toString (k + 1) ++ "/" ++ toString (ctxReviewerMaxRetries ctx) ++ "): " ++ review.summary.take 200)) now)
      (lookup_updA_self _ _ _)
    rw [if_pos (by simp [appliedS, specTransitions])] at h2
    have hne : ("reviewer_feedback" : String) ≠ "reviewer_retry_count" := by decide
    simp only [reviewerReject, hparse, if_pos hk, updateTaskS, h1, h2]
    split
    case h_2 heq =>
      rw [lookup_updA_self] at heq
      cases heq
    case h_1 t'' heq =>
      obtain ⟨t', rest, hdl, hdo, hdh, hdm⟩ :=
        dispatchSingleS_props archCtx spawnOut
          (⟨updA (updA (updA s.tasks taskId { t with agentOutputs := updA (updA t.agentOutputs "reviewer_feedback" review.summary) "reviewer_retry_count" (toString (k + 1)), updatedAt := now }) taskId (appliedS { t with agentOutputs := updA (updA t.agentOutputs "reviewer_feedback" review.summary) "reviewer_retry_count" (toString (k + 1)), updatedAt := now } .rejected (some "reviewer") (some ("rejected (retry " ++ toString (k + 1) ++ "/" ++ toString (ctxReviewerMaxRetries ctx) ++ "): " ++ review.summary.take 200)) now)) taskId (appliedS (appliedS { t with agentOutputs := updA (updA t.agentOutputs "reviewer_feedback" review.summary) "reviewer_retry_count" (toString (k + 1)), updatedAt := now } .rejected (some "reviewer") (some ("rejected (retry " ++ toString (k + 1) ++ "/" ++ toString (ctxReviewerMaxRetries ctx) ++ "): " ++ review.summary.take 200)) now) .planned (some "orchestrator") (some "queued for retry") now), s.checkpoints, s.pending, s.agents, s.trace⟩ : SState)
          taskId t'' now heq
      have heq2 := heq
      rw [lookup_updA_self] at heq2
      injection heq2 with heq3
      subst heq3
      refine ⟨t', rest, ?_, ?_, ?_, ?_, ?_⟩
      · split <;> exact hdl
      · rw [hdo]
        simp only [appliedS]
        rw [lookup_updA_ne _ _ _ _ hne]
        exact lookup_updA_self _ _ _
      · rw [hdo]
        simp only [appliedS]
        exact lookup_updA_self _ _ _
      · rw [hdh]
        simp [appliedS]
      · split <;> exact hdm
  · intro hk
    have hw := createCpS_writes s cpId taskId ("Review failed: " ++ t.title)
      (reviewerCpDesc t (ctxReviewerMaxRetries ctx) review) (some "reviewer") now
    simp only [reviewerReject, hparse, if_neg hk]
    rcases hres : createCpS s cpId taskId ("Review failed: " ++ t.title)
      (reviewerCpDesc t (ctxReviewerMaxRetries ctx) review) (some "reviewer") now with ⟨s2, r⟩
    rw [hres] at hw
    cases r <;> exact ⟨hw.1, hw.2.1⟩

/-- Witness for C5: on the reviewer store with no retry counter yet
(counter parses to 0, below the default maximum 1), a reject stores
the feedback, writes back counter "1", appends the two transition
events and leaves a dispatch_single call on the trace. -/
theorem c5_reviewer_reject_witness :
    (c5State.tasks.lookup "t" = some c5Task ∧
     c5Task.status = .review ∧
     pyIntOfString ((c5Task.agentOutputs.lookup "reviewer_retry_count").getD "0") =
       .ok 0 ∧
     (0 : Int) < (ctxReviewerMaxRetries none : Int)) ∧
    (∃ t' rest,
      (reviewerReject none archNone none "cp" c5State "t" c5Task c5Review 1).1.tasks.lookup "t" = some t' ∧
      t'.agentOutputs.lookup "reviewer_feedback" = some c5Review.summary ∧
      t'.agentOutputs.lookup "reviewer_retry_count" = some (toString ((0 : Int) + 1)) ∧
      t'.history = c5Task.history ++
        [statusEventS .rejected (some "reviewer")
           (some ("rejected (retry " ++ toString ((0 : Int) + 1) ++ "/" ++
             toString (ctxReviewerMaxRetries none) ++ "): " ++ c5Review.summary.take 200)) 1,
         statusEventS .planned (some "orchestrator") (some "queued for retry") 1] ++ rest ∧
      Act.dispatchSingleCall "t" ∈
        (reviewerReject none archNone none "cp" c5State "t" c5Task c5Review 1).1.trace) := by
  refine ⟨⟨rfl, rfl, rfl, by decide⟩, ?_⟩
  exact (c5_reviewer_reject none archNone none "cp" c5State "t" c5Task c5Review 1 0
    rfl rfl rfl).1 (by decide)

/-- keepDep keeps only in-range indices. -/
theorem keepDep_some (i : Nat) (a : JValue) (d : Int)
    (h : keepDep i a = some d) : 0 ≤ d ∧ d < (i : Int) := by
  cases a <;> simp only [keepDep] at h
  case jint n =>
    split at h
    · rename_i hc
      injection h with h
      subst h
      exact hc
    · exact Option.noConfusion h
  case jbool b =>
    split at h
    · split at h
      · rename_i hc
        injection h with h
        subst h
        exact hc
      · exact Option.noConfusion h
    · split at h
      · rename_i hc
        injection h with h
        subst h
        exact hc
      · exact Option.noConfusion h
  all_goals exact Option.noConfusion h

/-- C8.  A sub-task kept by _validate_plan at raw index i has a truthy
title and description and only depends_on indices d with 0 ≤ d < i
(indices at or beyond self are dropped); an item whose title or
description is missing or falsy is dropped; and when the subtasks
array yields no valid item the whole plan is None. -/
theorem c8_validate_plan :
    (∀ i st p, validateItem i st = some p →
       jTruthy p.title = true ∧ jTruthy p.descrJ = true ∧
       ∀ d ∈ p.dependsOn, 0 ≤ d ∧ d < (i : Int)) ∧
    (∀ i kvs, ((jGet kvs "title").elim false jTruthy = false ∨
        (jGet kvs "description").elim false jTruthy = false) →
       validateItem i (.jobj kvs) = none) ∧
    (∀ kvs raw, jGet kvs "subtasks" = some (.jarr raw) →
       (∀ p ∈ raw.enum, validateItem p.1 p.2 = none) →
       validatePlan (.jobj kvs) = none) := by
  refine ⟨?_, ?_, ?_⟩
  · intro i st p hp
    simp only [validateItem] at hp
    split at hp
    case h_2 => exact Option.noConfusion hp
    case h_1 kvs =>
      split at hp
      case isFalse => exact Option.noConfusion hp
      case isTrue hcond =>
        rw [Bool.and_eq_true] at hcond
        obtain ⟨ht, hd⟩ := hcond
        split at hp
        case h_1 ds hds =>
          injection hp with hp
          subst hp
          refine ⟨?_, ?_, ?_⟩
          · show jTruthy ((jGet kvs "title").getD JValue.jnull) = true
            rcases hts : jGet kvs "title" with _ | v
            · rw [hts] at ht
              exact Bool.noConfusion ht
            · rw [hts] at ht
              simpa using ht
          · show jTruthy ((jGet kvs "description").getD JValue.jnull) = true
            rcases hdsc : jGet kvs "description" with _ | v
            · rw [hdsc] at hd
              exact Bool.noConfusion hd
            · rw [hdsc] at hd
              simpa using hd
          · intro d hdm
            have hdm' : d ∈ ds.filterMap (keepDep i) := hdm
            rw [List.mem_filterMap] at hdm'
            obtain ⟨a, _, hfa⟩ := hdm'
            exact keepDep_some i a d hfa
        case h_2 =>
          injection hp with hp
          subst hp
          refine ⟨?_, ?_, ?_⟩
          · show jTruthy ((jGet kvs "title").getD JValue.jnull) = true
            rcases hts : jGet kvs "title" with _ | v
            · rw [hts] at ht
              exact Bool.noConfusion ht
            · rw [hts] at ht
              simpa using ht
          · show jTruthy ((jGet kvs "description").getD JValue.jnull) = true
            rcases hdsc : jGet kvs "description" with _ | v
            · rw [hdsc] at hd
              exact Bool.noConfusion hd
            · rw [hdsc] at hd
              simpa using hd
          · intro d hdm
            have hdm' : d ∈ ([] : List Int) := hdm
            exact absurd hdm' (List.not_mem_nil d)
  · intro i kvs hfd
    simp only [validateItem]
    rcases hfd with hfd | hfd <;> simp [hfd]
  · intro kvs raw hsub hnone
    have hempty : raw.enum.filterMap (fun p => validateItem p.1 p.2) = [] := by
      rw [List.filterMap_eq_nil_iff]
      exact hnone
    simp only [validatePlan]
    rw [hsub]
    by_cases hre : raw.isEmpty
    · simp [hre]
    · simp [hre, hempty]

/-- Witness for C8: the mixed item at raw index 2 keeps only indices
0 and 1 of its depends_on, the title-less item is dropped, and a plan
whose only subtask is invalid is None. -/
theorem c8_validate_plan_witness :
    (validateItem 2 c8subC = some c8pC ∧
     jTruthy c8pC.title = true ∧ jTruthy c8pC.descrJ = true ∧
     (∀ d ∈ c8pC.dependsOn, 0 ≤ d ∧ d < ((2 : Nat) : Int))) ∧
    ((jGet [("description", JValue.jstr "dB")] "title").elim false jTruthy = false ∧
     validateItem 1 (.jobj [("description", JValue.jstr "dB")]) = none) ∧
    (jGet [("subtasks", JValue.jarr [c8subB])] "subtasks" =
       some (JValue.jarr [c8subB]) ∧
     validatePlan (.jobj [("subtasks", JValue.jarr [c8subB])]) = none) := by
  have hv : validateItem 2 c8subC = some c8pC := rfl
  refine ⟨⟨hv, c8_validate_plan.1 2 c8subC c8pC hv⟩, ⟨rfl, ?_⟩, ⟨rfl, ?_⟩⟩
  · exact c8_validate_plan.2.1 1 [("description", JValue.jstr "dB")] (Or.inl rfl)
  · refine c8_validate_plan.2.2 [("subtasks", JValue.jarr [c8subB])] [c8subB] rfl ?_
    intro p hp
    have hp' : p ∈ [((0 : Nat), c8subB)] := hp
    rw [List.mem_singleton] at hp'
    subst hp'
    rfl

/-- C6, counterexample.  A duplicated TASK_COMPLETE for a DONE task
does not leave the stored task unchanged: the dev-complete handler
re-writes agent_outputs and bumps updated_at before attempting the
transition (which the store then refuses; the error is swallowed). -/
theorem c6_duplicate_writes_counterexample :
    (handleAgentMessage none hNop hNop hNop hNop cNop cNop cNop hNop
        c6Msg 1 c6State).1.tasks.lookup "t" =
      some ⟨.done, [], [("dev", "o")], some "p", [], none, none, "T", "", 1⟩
    ∧ (handleAgentMessage none hNop hNop hNop hNop cNop cNop cNop hNop
        c6Msg 1 c6State).1.tasks.lookup "t" ≠ some c6Task := by
  refine ⟨rfl, ?_⟩
  rw [show (handleAgentMessage none hNop hNop hNop hNop cNop cNop cNop hNop
        c6Msg 1 c6State).1.tasks.lookup "t" =
      some ⟨.done, [], [("dev", "o")], some "p", [], none, none, "T", "", 1⟩ from rfl]
  simp [c6Task]

end Legatus
